import Mathlib

/-!
Shallow embedding of the FAT-Forensics Blimey local-surrogate explanation
engine (`fatf/transparency/models/blimey.py`) together with the validation
helpers it relies on (`fatf/utils/validation.py`), and proofs of the
behavioural claims about them.

Modelling conventions:
* numpy dtypes are classified by kind: numerical (`?buifc`), textual, or
  object-like; a dtype is either plain (`base`) or structured (named fields),
  and `len(dtype)` is 0 for plain dtypes and the field count otherwise.
* an ndarray carries its dtype, its numpy shape tuple and its logical table
  of cells (a structured "2-D" dataset has numpy shape `[rows]` but a table
  of `rows` lists of `fields` cells; a logical 1-D array stores its cells as
  a single row).
* Python exceptions become an `Except` error value; warnings and calls into
  collaborator objects are recorded as observations in a writer-style monad
  so that "raises before any collaborator is invoked" is expressible.
* machine floats of the original are modelled as exact rationals; `None`
  becomes `Option.none`.
-/

namespace FatF

/-- Classification of a numpy scalar dtype: `numerical` covers the kinds in
the source's `_NUMPY_NUMERICAL_KINDS` set (`?buifc`), `textual` covers
string kinds, `objectKind` the remaining (non-base) kinds. -/
inductive NPKind where
  | numerical
  | textual
  | objectKind
deriving DecidableEq, Repr

/-- A numpy dtype: either a plain dtype of some kind, or a structured dtype
with named, typed fields. -/
inductive NPDtype where
  | base : NPKind → NPDtype
  | structured : List (String × NPKind) → NPDtype
deriving DecidableEq, Repr

/-- A cell value of an array: a number (rationals model the numeric kinds)
or a piece of text. -/
inductive NPValue where
  | num : ℚ → NPValue
  | str : String → NPValue
deriving DecidableEq, Repr

/-- A numpy array: dtype, numpy shape tuple, and the logical table of cells.
For a logical 1-D array (a data row) the cells are stored as the single
entry of `rows`. -/
structure NPArray where
  dtype : NPDtype
  shape : List Nat
  rows : List (List NPValue)
deriving DecidableEq, Repr

/-- A column index: an integer position (homogeneous arrays) or a field
name (structured arrays).  Mirrors `Index = Union[int, str]` in the
source. -/
abbrev Index := Sum Nat String

/-- Python exceptions raised by the embedded code.  `incompatibleModel`
stands for `fatf.exceptions.IncompatibleModelError`, `incorrectShape` for
`fatf.exceptions.IncorrectShapeError`. -/
inductive PyError where
  | incorrectShape (msg : String)
  | typeError (msg : String)
  | valueError (msg : String)
  | indexError (msg : String)
  | keyError (msg : String)
  | incompatibleModel (msg : String)
deriving DecidableEq, Repr

/-- A call into one of the collaborator objects, recorded so that claims
about "no collaborator is invoked before ..." can be stated. -/
inductive Event where
  | augmentorMake
  | discretizerMake
  | discretizeCall (arg : NPArray)
  | sampleCall (row : NPArray) (n : Nat)
  | predictProbaCall (arg : NPArray)
  | localModelMake (cls : Nat)
  | localFitCall (cls : Nat) (targets : List NPValue)
  | explainerMake (cls : Nat)
  | explainCall (cls : Nat)
deriving DecidableEq, Repr

/-- An observable side effect: a `warnings.warn` call or a collaborator
invocation. -/
inductive Obs where
  | warning (msg : String)
  | event (e : Event)
deriving DecidableEq, Repr

/-- Result of running a piece of embedded Python: the observations made so
far (also kept when an exception escapes) and either a value or the
exception. -/
structure PyM (α : Type) where
  obs : List Obs
  res : Except PyError α

/-- Sequencing: observations accumulate; an exception aborts the rest. -/
def PyM.bindM {α β : Type} (x : PyM α) (f : α → PyM β) : PyM β :=
  match x.res with
  | Except.error e => ⟨x.obs, Except.error e⟩
  | Except.ok a =>
      let y := f a
      ⟨x.obs ++ y.obs, y.res⟩

instance : Monad PyM where
  pure a := ⟨[], Except.ok a⟩
  bind := PyM.bindM

/-- Raise a Python exception. -/
def raise {α : Type} (e : PyError) : PyM α := ⟨[], Except.error e⟩

/-- Emit a `UserWarning` (the source's `warnings.warn`). -/
def warn (msg : String) : PyM Unit := ⟨[Obs.warning msg], Except.ok ()⟩

/-- Record a collaborator invocation. -/
def emit (e : Event) : PyM Unit := ⟨[Obs.event e], Except.ok ()⟩

/-- Raise `e` unless `cond` holds; the shape of every `if not X: raise E`
statement in the source. -/
def require (cond : Bool) (e : PyError) : PyM Unit :=
  if cond then pure () else raise e

@[simp] theorem PyM.bind_eq_bindM {α β : Type} (x : PyM α) (f : α → PyM β) :
    x >>= f = PyM.bindM x f := rfl

@[simp] theorem PyM.bindM_res {α β : Type} (x : PyM α) (f : α → PyM β) :
    (PyM.bindM x f).res =
      match x.res with
      | Except.error e => Except.error e
      | Except.ok a => (f a).res := by
  cases h : x.res <;> simp [PyM.bindM, h]

@[simp] theorem PyM.bindM_obs {α β : Type} (x : PyM α) (f : α → PyM β) :
    (PyM.bindM x f).obs =
      match x.res with
      | Except.error _ => x.obs
      | Except.ok a => x.obs ++ (f a).obs := by
  cases h : x.res <;> simp [PyM.bindM, h]

@[simp] theorem PyM.pure_res {α : Type} (a : α) :
    (pure a : PyM α).res = Except.ok a := rfl

@[simp] theorem PyM.pure_obs {α : Type} (a : α) :
    (pure a : PyM α).obs = ([] : List Obs) := rfl

@[simp] theorem PyM.raise_res {α : Type} (e : PyError) :
    (raise e : PyM α).res = Except.error e := rfl

@[simp] theorem PyM.raise_obs {α : Type} (e : PyError) :
    (raise e : PyM α).obs = ([] : List Obs) := rfl

@[simp] theorem PyM.warn_res (m : String) : (warn m).res = Except.ok () := rfl

@[simp] theorem PyM.warn_obs (m : String) : (warn m).obs = [Obs.warning m] := rfl

@[simp] theorem PyM.emit_res (e : Event) : (emit e).res = Except.ok () := rfl

@[simp] theorem PyM.emit_obs (e : Event) : (emit e).obs = [Obs.event e] := rfl

@[simp] theorem PyM.require_true (e : PyError) : require true e = pure () := rfl

@[simp] theorem PyM.require_false (e : PyError) : require false e = raise e := rfl

/-- The collaborator invocations contained in a list of observations. -/
def eventsOf (l : List Obs) : List Event :=
  l.filterMap fun o =>
    match o with
    | Obs.event e => some e
    | Obs.warning _ => none

/-- The warning messages contained in a list of observations. -/
def warningsOf (l : List Obs) : List String :=
  l.filterMap fun o =>
    match o with
    | Obs.warning m => some m
    | Obs.event _ => none

/-- `len(array.dtype)` of the source: 0 for a plain dtype, the number of
fields for a structured one. -/
def NPDtype.len : NPDtype → Nat
  | NPDtype.base _ => 0
  | NPDtype.structured fields => fields.length

/-- `array.dtype.names` (empty for plain dtypes). -/
def NPDtype.names : NPDtype → List String
  | NPDtype.base _ => []
  | NPDtype.structured fields => fields.map Prod.fst

/-- The cells of a logical 1-D array. -/
def NPArray.cells1d (a : NPArray) : List NPValue := a.rows.headD []

/-- Indexing a Python tuple, as in `array.shape[1]`; out-of-range access
raises `IndexError: tuple index out of range`. -/
def tupleGet (t : List Nat) (i : Nat) : PyM Nat :=
  match t.get? i with
  | some v => pure v
  | none => raise (PyError.indexError "tuple index out of range")

/-- `fatf.utils.validation.is_structured_array`: an array is structured when
`len(array.dtype) != 0`. -/
def is_structured_array (a : NPArray) : Bool := a.dtype.len ≠ 0

/-- `fatf.utils.validation.is_numerical_dtype` on a plain dtype kind: true
for the kinds in `_NUMPY_NUMERICAL_KINDS`. -/
def is_numerical_kind (k : NPKind) : Bool := k = NPKind.numerical

/-- `fatf.utils.validation.is_numerical_array`: for a structured array every
field dtype must be numerical, otherwise the single dtype is inspected. -/
def is_numerical_array (a : NPArray) : Bool :=
  match a.dtype with
  | NPDtype.structured fields => fields.all fun fk => is_numerical_kind fk.2
  | NPDtype.base k => is_numerical_kind k

/-- `fatf.utils.validation.is_1d_array`.  The argument is an arbitrary
Python object (`none` models any non-ndarray value such as `None`), which
raises `TypeError`; a structured array is never 1-D but a pseudo 1-D one
(single field, 1-D shape) additionally warns. -/
def is_1d_array (a : Option NPArray) : PyM Bool := do
  match a with
  | none => raise (PyError.typeError "The input should be a numpy array-like.")
  | some arr =>
      if is_structured_array arr then do
        if arr.dtype.len = 1 ∧ arr.shape.length = 1 then
          warn "Structured (pseudo) 1-dimensional arrays are not acceptable. A 1-dimensional structured numpy array can be expressed as a classic numpy array with a desired type."
        pure false
      else
        pure (arr.shape.length = 1)

/-- `fatf.utils.validation.is_2d_array`: a plain array is 2-D when its shape
has two entries; a structured array is 2-D when its shape is 1-D and the
dtype has more than one field (a 2-D shape over a single-field dtype warns
and is rejected). -/
def is_2d_array (arr : NPArray) : PyM Bool := do
  if is_structured_array arr then
    if arr.shape.length = 2 ∧ arr.dtype.len = 1 then do
      warn "2-dimensional arrays with 1D structured elements are not acceptable. Such a numpy array can be expressed as a classic 2D numpy array with a desired type."
      pure false
    else if arr.shape.length = 1 ∧ arr.dtype.len > 1 then
      pure true
    else
      pure false
  else
    pure (arr.shape.length = 2)

/-- `fatf.utils.validation.indices_by_type`: split the column indices of a
2-D array into numerical and non-numerical ones.  For a structured array the
fields are classified one by one (indices are the field names); a plain
array is all-or-nothing through `is_numerical_array`. -/
def indices_by_type (arr : NPArray) : PyM (List Index × List Index) := do
  let is2d ← is_2d_array arr
  let _ ← require is2d (PyError.incorrectShape "The input array should be 2-dimensional.")
  match arr.dtype with
  | NPDtype.structured fields =>
      let numerical := (fields.filter fun fk => is_numerical_kind fk.2).map
        fun fk => (Sum.inr fk.1 : Index)
      let nonNumerical := (fields.filter fun fk => ! is_numerical_kind fk.2).map
        fun fk => (Sum.inr fk.1 : Index)
      pure (numerical, nonNumerical)
  | NPDtype.base _ => do
      let cols ← tupleGet arr.shape 1
      if is_numerical_array arr then
        pure ((List.range cols).map fun i => (Sum.inl i : Index), [])
      else
        pure ([], (List.range cols).map fun i => (Sum.inl i : Index))

/-- The set of valid column indices of a 2-D array (`array.dtype.names` for
structured arrays, `range(array.shape[1])` otherwise), as used by
`get_invalid_indices`. -/
def validIndices (arr : NPArray) : PyM (List Index) :=
  match arr.dtype with
  | NPDtype.structured fields => pure (fields.map fun fk => (Sum.inr fk.1 : Index))
  | NPDtype.base _ => do
      let cols ← tupleGet arr.shape 1
      pure ((List.range cols).map fun i => (Sum.inl i : Index))

/-- Boolean membership test on lists with decidable equality. -/
def listElem {α : Type} [DecidableEq α] (a : α) (ys : List α) : Bool :=
  ys.any fun j => decide (j = a)

theorem listElem_iff {α : Type} [DecidableEq α] (a : α) (ys : List α) :
    listElem a ys = true ↔ a ∈ ys := by
  constructor
  · intro h
    rcases List.any_eq_true.mp h with ⟨j, hj, hji⟩
    exact (of_decide_eq_true hji) ▸ hj
  · intro h
    exact List.any_eq_true.mpr ⟨a, h, by simp⟩

instance {α : Type} [DecidableEq α] (a : α) (l : List α) : Decidable (a ∈ l) :=
  decidable_of_iff (listElem a l = true) (listElem_iff a l)

/-- Set difference of index lists, `set(indices.tolist()) - array_indices`
of the source (deduplicated; the source returns it sorted, the order is
irrelevant to every use). -/
def indexSetDiff (xs ys : List Index) : List Index :=
  (xs.filter fun (i : Index) => ! listElem i ys).dedup

/-- `fatf.utils.validation.get_invalid_indices`: the declared indices that
do not exist in the array. -/
def get_invalid_indices (arr : NPArray) (indices : List Index) : PyM (List Index) := do
  let is2d ← is_2d_array arr
  let _ ← require is2d (PyError.incorrectShape "The input array should be 2-dimensional.")
  let valid ← validIndices arr
  pure (indexSetDiff indices valid)

/-- A Python method as seen by `inspect.signature` on a bound method: the
number of parameters without a default value (`self` excluded). -/
structure PyMethod where
  requiredParams : Nat
deriving DecidableEq, Repr

/-- The method surface of a model object that
`check_model_functionality` examines; `none` models a missing attribute. -/
structure ModelSig where
  fit : Option PyMethod
  predict : Option PyMethod
  predict_proba : Option PyMethod
deriving DecidableEq, Repr

/-- One entry of the `methods` loop of `check_model_functionality`: whether
the method is present with exactly the expected number of required
parameters, plus the warning text otherwise. -/
def checkMethod (m : Option PyMethod) (methodName : String) (expected : Nat) :
    Bool × List String :=
  match m with
  | none => (false, ["The model class is missing " ++ methodName ++ " method."])
  | some meth =>
      if meth.requiredParams = expected then (true, [])
      else
        (false,
         ["The " ++ methodName ++ " method of the class has incorrect number (" ++
          toString meth.requiredParams ++
          ") of the required parameters. It needs to have exactly " ++
          toString expected ++
          " required parameters. Try using optional parameters if you require more functionality."])

/-- `fatf.utils.validation.check_model_functionality`: `fit` needs exactly 2
required parameters, `predict` exactly 1 and, when probabilities are
required, `predict_proba` exactly 1; when the object is not functional and
warnings are not suppressed, one aggregated warning is emitted. -/
def check_model_functionality (sig : ModelSig) (require_probabilities : Bool)
    (suppress_warning : Bool) : PyM Bool := do
  let checks :=
    [checkMethod sig.fit "fit" 2, checkMethod sig.predict "predict" 1] ++
      (if require_probabilities then [checkMethod sig.predict_proba "predict_proba" 1] else [])
  let is_functional := checks.all fun c => c.1
  if ! is_functional && ! suppress_warning then
    warn (String.intercalate "\n" (checks.foldr (fun c acc => c.2 ++ acc) []))
  pure is_functional

/-- Modelled from the spec: `fatf.utils.array.validation.is_base_array` is
imported by the Blimey module but its module is not among the sources;
section 4.2 of the spec requires the dataset to "contain only primitive
(numeric/text) cell types", so an array is base exactly when no (field)
dtype is object-like. -/
def is_base_array (a : NPArray) : Bool :=
  match a.dtype with
  | NPDtype.base k => k ≠ NPKind.objectKind
  | NPDtype.structured fields => fields.all fun fk => fk.2 ≠ NPKind.objectKind

/-- Modelled from the spec: `fatf.utils.array.validation.
are_similar_dtype_arrays` is imported by the Blimey module but its module is
not among the sources; section 4.3 of the spec requires the instance to
"have a value type compatible with the dataset's declared type under strict
comparison", modelled as exact dtype equality (the engine only ever calls it
with `strict_comparison=True`). -/
def are_similar_dtype_arrays (a b : NPArray) : Bool :=
  a.dtype = b.dtype

/-- Modelled from the spec: `fatf.utils.data.similarity_binary_mask.
similarity_binary_mask` is imported by the Blimey module but its module is
not among the sources; section 3 of the spec: a (neighborhood size x feature
count) matrix, "each cell 1 if the neighborhood row's discretized value in
that feature equals the reference instance's discretized value in that
feature, else 0". -/
def similarity_binary_mask (neigh : NPArray) (row : NPArray) : NPArray :=
  { dtype := NPDtype.base NPKind.numerical
    shape := [neigh.rows.length, row.cells1d.length]
    rows := neigh.rows.map fun r =>
      (List.zip r row.cells1d).map fun p =>
        if p.1 = p.2 then NPValue.num 1 else NPValue.num 0 }

/-- Internal state of a local-model instance; its representation is opaque
to the orchestrator, which only ever threads it from the factory through
`fit` into the explainer. -/
abbrev LMState := List NPValue

/-- Free-form keyword configuration, forwarded verbatim to every
collaborator call. -/
abbrev Kwargs := List (String × NPValue)

/-- The global model: the method surface examined at validation time plus
the behaviour of its probability-output capability. -/
structure GlobalModel where
  sig : ModelSig
  predict_proba : NPArray → NPArray

/-- A constructed augmentor (neighborhood sampler) collaborator. -/
structure AugmentorInstance where
  sample : NPArray → Nat → Kwargs → NPArray

/-- An augmentor class reference: the `issubclass(augmentor, Augmentation)`
flag checked at validation time and the constructor
`augmentor(dataset, categorical_indices=..., **kwargs)`. -/
structure AugmentorClass where
  isSubclassOfAugmentation : Bool
  make : NPArray → List Index → Kwargs → AugmentorInstance

/-- A constructed discretizer collaborator: the `discretize` capability and
the read-only `feature_value_names` mapping (feature index to a mapping
from discretized value to a human-readable label). -/
structure DiscretizerInstance where
  discretize : NPArray → NPArray
  feature_value_names : List (Index × List (Int × String))

/-- A discretizer class reference: the `issubclass(discretizer,
Discretization)` flag and the constructor
`discretizer(dataset, categorical_indices=..., feature_names=..., **kwargs)`. -/
structure DiscretizerClass where
  isSubclassOfDiscretization : Bool
  make : NPArray → List Index → Option (List (Option String)) → Kwargs → DiscretizerInstance

/-- A local-model class reference: the method surface examined at
validation time, the zero/keyword-argument factory, and the (in-place in
the source, state-passing here) `fit` capability. -/
structure LocalModelClass where
  sig : ModelSig
  make : Kwargs → LMState
  fit : LMState → NPArray → List NPValue → LMState

/-- A per-class explanation: a mapping from feature identifier to a numeric
attribution. -/
abbrev Explanation := List (Index × ℚ)

/-- A constructed explainer collaborator. -/
structure ExplainerInstance where
  explain_instance : NPArray → Kwargs → Explanation

/-- An explainer class reference: the constructor
`explainer(dataset, local_model=..., feature_names=...,
categorical_indices=..., **kwargs)`. -/
structure ExplainerClass where
  make : NPArray → LMState → List String → List Index → Kwargs → ExplainerInstance

/-- Modelled from the spec: `fatf.utils.models.validation.
check_model_functionality` as called for the local model (with
`require_probabilities=False`, `suppress_warning=True`, `is_instance=False`)
lives in a module that is not among the sources; section 4.2 of the spec:
"Local-model type must expose fit/predict (probabilities not required)",
with the same exact-arity convention as the in-source
`check_model_functionality`. -/
def check_local_model_functionality (sig : ModelSig) : Bool :=
  (match sig.fit with
   | some m => m.requiredParams = 2
   | none => false) &&
  (match sig.predict with
   | some m => m.requiredParams = 1
   | none => false)

/-- The per-entry type check on a class-name list (blimey.py lines 92-101).
In this embedding the entries are typed `Option String`, so the `TypeError`
branches of the source are unreachable and the check always succeeds. -/
def checkOptionalStringList (l : Option (List (Option String))) : PyM Unit :=
  match l with
  | none => pure ()
  | some _ => pure ()

theorem checkOptionalStringList_eq (l : Option (List (Option String))) :
    checkOptionalStringList l = pure () := by
  cases l <;> rfl

/-- The incompatible-model message for the global model (blimey.py lines
60-62). -/
def globalModelErrorMsg : String :=
  "This functionality requires the global model to be capable of outputting probabilities via predict_proba method."

/-- The incompatible-model message for the local model (blimey.py lines
67-69). -/
def localModelErrorMsg : String :=
  "This functionality requires the local model to be capable of outputting probabilities via predict_proba method."

/-- The global-model validation block of `_input_is_valid` (blimey.py lines
58-62): `check_model_functionality` with probabilities required and
warnings suppressed, raising a hard `IncompatibleModelError` on failure. -/
def checkGlobalModel (global_model : GlobalModel) : PyM Unit := do
  let okGlobal ← check_model_functionality global_model.sig true true
  require okGlobal (PyError.incompatibleModel globalModelErrorMsg)

/-- The local-model validation block of `_input_is_valid` (blimey.py lines
64-69). -/
def checkLocalModel (local_model : LocalModelClass) : PyM Unit :=
  require (check_local_model_functionality local_model.sig)
    (PyError.incompatibleModel localModelErrorMsg)

/-- The `categorical_indices` validation block of `_input_is_valid`
(blimey.py lines 73-82): when a list is declared, every declared index must
exist in the dataset. -/
def checkCategoricalIndices (dataset : NPArray)
    (categorical_indices : Option (List Index)) : PyM Unit :=
  match categorical_indices with
  | some ci => do
      let invalid ← get_invalid_indices dataset ci
      require invalid.isEmpty
        (PyError.indexError "The following indices are invalid for the input dataset.")
  | none => pure ()

/-- The feature count used by `_input_is_valid` (blimey.py lines 103-106):
the field count for structured datasets, `dataset.shape[1]` otherwise. -/
def featuresNumberOf (dataset : NPArray) : PyM Nat :=
  if is_structured_array dataset then pure dataset.dtype.len
  else tupleGet dataset.shape 1

/-- The `feature_names` validation block of `_input_is_valid` (blimey.py
lines 108-119): a declared list must have exactly one entry per feature. -/
def checkFeatureNamesLength (featuresNumber : Nat)
    (feature_names : Option (List (Option String))) : PyM Unit :=
  match feature_names with
  | some fn =>
      require (fn.length = featuresNumber)
        (PyError.valueError "The length of feature_names must be equal to the number of features in the dataset.")
  | none => pure ()

/-- `fatf.transparency.models.blimey._input_is_valid`: the construction-time
validation sequence, failing fast with a distinct error kind per condition
(the `TypeError` branches for arguments of the wrong Python type are
unrepresentable in this typed embedding and therefore omitted). -/
def inputIsValid (dataset : NPArray) (augmentor : AugmentorClass)
    (discretizer : DiscretizerClass) (global_model : GlobalModel)
    (local_model : LocalModelClass) (categorical_indices : Option (List Index))
    (class_names : Option (List (Option String)))
    (feature_names : Option (List (Option String))) : PyM Bool := do
  let is2d ← is_2d_array dataset
  let _ ← require is2d
    (PyError.incorrectShape "The input dataset must be a 2-dimensional array.")
  let _ ← require (is_base_array dataset)
    (PyError.typeError "The input dataset must only contain base types (textual and numerical).")
  let _ ← checkGlobalModel global_model
  let _ ← checkLocalModel local_model
  let _ ← checkCategoricalIndices dataset categorical_indices
  let _ ← require augmentor.isSubclassOfAugmentation
    (PyError.typeError "The augmentor object must inherit from abstract class fatf.utils.augmentation.Augmentation.")
  let _ ← require discretizer.isSubclassOfDiscretization
    (PyError.typeError "The discretizer object must inherit from abstract class fatf.utils.discretization.Discretization.")
  let _ ← checkOptionalStringList class_names
  let featuresNumber ← featuresNumberOf dataset
  let _ ← checkFeatureNamesLength featuresNumber feature_names
  pure true

/-- The categorical-index reconciliation of `Blimey.__init__` (lines
254-271): the non-numerical indices from the dataset's type scan are
unioned with the user-declared ones; the boolean reports whether the
widening warning fires (some non-numerical index missing from a declared
list).  Python's set iteration order is unspecified; the embedding fixes a
deduplicated list and every claim is stated up to membership. -/
def resolveCategorical (nonNumerical : List Index) (declared : Option (List Index)) :
    List Index × Bool :=
  match declared with
  | none => (nonNumerical.dedup, false)
  | some ci =>
      ((nonNumerical ++ ci).dedup,
       ! (nonNumerical.filter fun i => ! listElem i ci).isEmpty)

/-- The conditional `warnings.warn` call of `Blimey.__init__` (line 269):
fires exactly when the categorical reconciliation widened the declared
set. -/
def maybeWarnWidening (widened : Bool) (msg : String) : PyM Unit :=
  if widened then warn msg else pure ()

/-- The widening warning message of `Blimey.__init__`. -/
def wideningWarning : String :=
  "Some of the string-based columns in the input dataset were not selected as categorical features via the categorical_indices parameter. String-based columns cannot be treated as numerical features, therefore they will be also treated as categorical features (in addition to the ones selected with the categorical_indices parameter)."

/-- The index list computed by `Blimey.__init__` (lines 286-289):
`dataset.dtype.names` for a structured dataset, `np.arange(0,
dataset.shape[1], 1)` otherwise. -/
def indicesListOf (dataset : NPArray) : PyM (List Index) :=
  if is_structured_array dataset then
    pure (dataset.dtype.names.map fun s => (Sum.inr s : Index))
  else do
    let cols ← tupleGet dataset.shape 1
    pure ((List.range cols).map fun i => (Sum.inl i : Index))

/-- The `feature_names` preprocessing of `Blimey.__init__` (lines 292-293):
an absent list becomes `[None] * dataset.shape[1]` — note the unconditional
`shape[1]`, which raises `IndexError` for structured datasets. -/
def featureNamesBaseOf (dataset : NPArray)
    (feature_names : Option (List (Option String))) : PyM (List (Option String)) :=
  match feature_names with
  | none => do
      let cols ← tupleGet dataset.shape 1
      pure (List.replicate cols (none : Option String))
  | some fn => pure fn

/-- The name-synthesis loops of `Blimey.__init__` (lines 294-308): a `None`
entry at position `i` becomes `stem ++ i`. -/
def synthesizeNames (stem : String) (l : List (Option String)) : List String :=
  l.enum.map fun p =>
    match p.2 with
    | none => stem ++ toString p.1
    | some s => s

/-- The engine configuration assembled by `Blimey.__init__`; every field is
an attribute the source sets on `self`. -/
structure Blimey where
  kwargs : Kwargs
  dataset : NPArray
  is_structured : Bool
  categorical_indices : List Index
  global_model : GlobalModel
  augmentor : AugmentorInstance
  discretizer : DiscretizerInstance
  discretized_dataset : NPArray
  explainer_class : ExplainerClass
  n_classes : Nat
  local_model : LocalModelClass
  indices : List Index
  feature_names : List String
  class_names : List String

/-- `Blimey.__init__`: validate, reconcile the categorical indices (warning
when widening), instantiate the augmentor and discretizer, discretize the
training dataset once, determine the class count from a `predict_proba`
call on the dataset, fix the index list, and synthesize display names.
Note that the source evaluates `self.dataset.shape[1]` when `feature_names`
is `None` (line 293), which for a structured dataset (numpy shape `[rows]`)
raises `IndexError: tuple index out of range`. -/
def blimeyInit (dataset : NPArray) (augmentor : AugmentorClass)
    (discretizer : DiscretizerClass) (explainer : ExplainerClass)
    (global_model : GlobalModel) (local_model : LocalModelClass)
    (categorical_indices : Option (List Index))
    (class_names : Option (List (Option String)))
    (feature_names : Option (List (Option String))) (kwargs : Kwargs) :
    PyM Blimey := do
  let _ ← inputIsValid dataset augmentor discretizer global_model local_model
    categorical_indices class_names feature_names
  let idx ← indices_by_type dataset
  let resolved := resolveCategorical idx.2 categorical_indices
  let _ ← maybeWarnWidening resolved.2 wideningWarning
  let _ ← emit Event.augmentorMake
  let augInstance := augmentor.make dataset resolved.1 kwargs
  let _ ← emit Event.discretizerMake
  let discInstance := discretizer.make dataset resolved.1 feature_names kwargs
  let _ ← emit (Event.discretizeCall dataset)
  let discretizedDataset := discInstance.discretize dataset
  let _ ← emit (Event.predictProbaCall dataset)
  let nClasses ← tupleGet (global_model.predict_proba dataset).shape 1
  let indicesList ← indicesListOf dataset
  let featureNamesBase ← featureNamesBaseOf dataset feature_names
  pure
    { kwargs := kwargs
      dataset := dataset
      is_structured := is_structured_array dataset
      categorical_indices := resolved.1
      global_model := global_model
      augmentor := augInstance
      discretizer := discInstance
      discretized_dataset := discretizedDataset
      explainer_class := explainer
      n_classes := nClasses
      local_model := local_model
      indices := indicesList
      feature_names := synthesizeNames "feature " featureNamesBase
      class_names := synthesizeNames "class "
        (match class_names with
         | none => List.replicate nClasses (none : Option String)
         | some cn => cn) }

/-- A placeholder array; only used where validation has already guaranteed
that an `Option NPArray` is `some`. -/
def emptyNPArray : NPArray :=
  { dtype := NPDtype.base NPKind.numerical, shape := [], rows := [] }

/-- `Blimey._explain_instance_is_input_valid`: the instance must be a 1-D
array of a dtype strictly compatible with the dataset's and (for
non-structured datasets) with the dataset's column count; the sample count
must be a positive integer (`none` models any non-integer Python value). -/
def explainInstanceIsInputValid (b : Blimey) (data_row : Option NPArray)
    (samples_number : Option Int) : PyM Bool := do
  let is1d ← is_1d_array data_row
  let _ ← require is1d
    (PyError.incorrectShape "data_row must be a 1-dimensional array")
  let row := data_row.getD emptyNPArray
  let _ ← require (are_similar_dtype_arrays b.dataset row)
    (PyError.typeError "The dtype of the data is different to the dtype of the data array used to initialise this class.")
  let _ ←
    (if ! b.is_structured then do
       let rowLen ← tupleGet row.shape 0
       let datasetCols ← tupleGet b.dataset.shape 1
       require (rowLen = datasetCols)
         (PyError.incorrectShape "The data must contain the same number of features as the dataset used to initialise this class.")
     else pure ())
  match samples_number with
  | some n => do
      let _ ← require (decide (1 ≤ n))
        (PyError.valueError "The samples_number parameter must be a positive integer.")
      pure true
  | none => raise (PyError.typeError "The samples_number parameter must be an integer.")

/-- Looking a value up in a Python list by position
(`self.feature_names[i]`, `self.class_names[i]`). -/
def pyListGet {α : Type} (l : List α) (i : Nat) : PyM α :=
  match l.get? i with
  | some v => pure v
  | none => raise (PyError.indexError "list index out of range")

/-- An association-list lookup (a Python dictionary read). -/
def assocFind {α β : Type} [DecidableEq α] (l : List (α × β)) (k : α) : Option β :=
  match l.find? fun p => decide (p.1 = k) with
  | some p => some p.2
  | none => none

/-- `int(...)` on a cell value: truncation toward zero for numbers,
`ValueError` for text. -/
def pyIntOfValue (v : NPValue) : PyM Int :=
  match v with
  | NPValue.num q => pure (if 0 ≤ q then Int.floor q else Int.ceil q)
  | NPValue.str _ => raise (PyError.valueError "invalid literal for int() with base 10")

/-- Reading `array[index]` on a logical 1-D array: by position for an
integer index, by field position for a name. -/
def ndarrayGet1d (a : NPArray) (idx : Index) : PyM NPValue :=
  match idx with
  | Sum.inl i =>
      match a.cells1d.get? i with
      | some v => pure v
      | none => raise (PyError.indexError "index out of bounds")
  | Sum.inr fieldName =>
      match a.dtype with
      | NPDtype.structured fields =>
          (match fields.findIdx? (fun fk => decide (fk.1 = fieldName)) with
           | some pos =>
               (match a.cells1d.get? pos with
                | some v => pure v
                | none => raise (PyError.indexError "index out of bounds"))
           | none => raise (PyError.keyError "no field of name"))
      | NPDtype.base _ =>
          raise (PyError.indexError "only integers are valid indices")

/-- Column `i` of the probability matrix, `prediction_probabilities[:, i]`. -/
def probsColumn (probs : NPArray) (i : Nat) : PyM (List NPValue) :=
  match probs.rows.mapM fun r => r.get? i with
  | some col => pure col
  | none => raise (PyError.indexError "index out of bounds for probability matrix")

/-- Inserting into a Python dictionary: an existing key keeps its original
position and gets the new value, a fresh key is appended. -/
def pyDictInsert {β : Type} (d : List (String × β)) (k : String) (v : β) :
    List (String × β) :=
  if d.any fun p => decide (p.1 = k) then
    d.map fun p => if p.1 = k then (k, v) else p
  else d ++ [(k, v)]

/-- The `discretized_feature_names` loop of `Blimey.explain_instance`
(lines 401-408): for each feature index, cast the instance's discretized
value to `int`; when the discretizer has labels for the feature use the
label of that value, otherwise fall back to the plain feature name. -/
def buildDiscretizedFeatureNames (b : Blimey) (discRow : NPArray) :
    List (Nat × Index) → PyM (List String)
  | [] => pure []
  | p :: rest => do
      let v ← ndarrayGet1d discRow p.2
      let discValue ← pyIntOfValue v
      let name ←
        (match assocFind b.discretizer.feature_value_names p.2 with
         | some valueNames =>
             (match assocFind valueNames discValue with
              | some s => pure s
              | none => raise (PyError.keyError "discretized value has no label"))
         | none => pyListGet b.feature_names p.1)
      let restNames ← buildDiscretizedFeatureNames b discRow rest
      pure (name :: restNames)

/-- The per-class loop of `Blimey.explain_instance` (lines 410-423): for
each class index, build a fresh local model from the factory, fit it on the
binary design matrix against that class's probability column, build a fresh
explainer around it, explain the discretized instance, and record the
result under the class's display name. -/
def classLoop (b : Blimey) (binaryData : NPArray) (probs : NPArray)
    (discFeatureNames : List String) (discRow : NPArray) :
    List Nat → List (String × Explanation) → PyM (List (String × Explanation))
  | [], acc => pure acc
  | i :: rest, acc => do
      let _ ← emit (Event.localModelMake i)
      let lm := b.local_model.make b.kwargs
      let targets ← probsColumn probs i
      let _ ← emit (Event.localFitCall i targets)
      let fitted := b.local_model.fit lm binaryData targets
      let _ ← emit (Event.explainerMake i)
      let explainerInstance := b.explainer_class.make b.dataset fitted
        discFeatureNames b.categorical_indices b.kwargs
      let _ ← emit (Event.explainCall i)
      let explanation := explainerInstance.explain_instance discRow b.kwargs
      let className ← pyListGet b.class_names i
      classLoop b binaryData probs discFeatureNames discRow rest
        (pyDictInsert acc className explanation)

/-- The per-call explanation result: a mapping from class display name to a
feature-attribution mapping, in insertion order. -/
abbrev Explanations := List (String × Explanation)

/-- `Blimey.explain_instance` with the engine state threaded explicitly:
validate, discretize the instance, sample the neighborhood, query the
global model's probabilities, discretize the neighborhood, build the binary
similarity matrix, build the discretized feature labels, and run the
per-class loop in ascending class order.  The source assigns only local
variables (never `self.…`), so the state returned is the state passed in. -/
def explainInstanceCore (s : Blimey) (data_row : Option NPArray)
    (samples_number : Option Int) : PyM (Explanations × Blimey) := do
  let _ ← explainInstanceIsInputValid s data_row samples_number
  let row := data_row.getD emptyNPArray
  let _ ← emit (Event.discretizeCall row)
  let discretizedDataRow := s.discretizer.discretize row
  let n := (samples_number.getD 50).toNat
  let _ ← emit (Event.sampleCall row n)
  let sampledData := s.augmentor.sample row n s.kwargs
  let _ ← emit (Event.predictProbaCall sampledData)
  let predictionProbabilities := s.global_model.predict_proba sampledData
  let _ ← emit (Event.discretizeCall sampledData)
  let discretizedSampledData := s.discretizer.discretize sampledData
  let binaryData := similarity_binary_mask discretizedSampledData discretizedDataRow
  let discFeatureNames ← buildDiscretizedFeatureNames s discretizedDataRow s.indices.enum
  let result ← classLoop s binaryData predictionProbabilities discFeatureNames
    discretizedDataRow (List.range s.n_classes) []
  pure (result, s)

/-- `Blimey.explain_instance`, projected to its return value. -/
def explainInstance (b : Blimey) (data_row : Option NPArray)
    (samples_number : Option Int) : PyM Explanations := do
  let r ← explainInstanceCore b data_row samples_number
  pure r.1

/-!  Concrete collaborators and datasets used to instantiate the claims. -/

/-- A method surface with `fit(data, labels)`, `predict(data)` and
`predict_proba(data)` at the exact required arities. -/
def okSig : ModelSig :=
  { fit := some ⟨2⟩, predict := some ⟨1⟩, predict_proba := some ⟨1⟩ }

/-- A method surface with only `fit` and `predict` (a local model). -/
def okLocalSig : ModelSig :=
  { fit := some ⟨2⟩, predict := some ⟨1⟩, predict_proba := none }

/-- A 3-row, 2-column homogeneous numerical dataset. -/
def numDataset : NPArray :=
  { dtype := NPDtype.base NPKind.numerical
    shape := [3, 2]
    rows := [[NPValue.num 1, NPValue.num 2], [NPValue.num 3, NPValue.num 4],
             [NPValue.num 5, NPValue.num 6]] }

/-- A 1-D numerical instance matching `numDataset`. -/
def numRow : NPArray :=
  { dtype := NPDtype.base NPKind.numerical
    shape := [2]
    rows := [[NPValue.num 10, NPValue.num 20]] }

/-- A global model with a well-formed method surface whose `predict_proba`
returns, for every input row, the malformed probability row
`[0.45, 0.45]` (row sum 0.9). -/
def badProbaModel : GlobalModel :=
  { sig := okSig
    predict_proba := fun a =>
      { dtype := NPDtype.base NPKind.numerical
        shape := [a.rows.length, 2]
        rows := a.rows.map fun _ => [NPValue.num (9 / 20), NPValue.num (9 / 20)] } }

/-- A deterministic identity augmentor: the sampled neighborhood is the
instance replicated `count` times. -/
def identityAugmentor : AugmentorClass :=
  { isSubclassOfAugmentation := true
    make := fun _ _ _ =>
      { sample := fun row n _ =>
          { dtype := row.dtype, shape := [n, row.cells1d.length]
            rows := List.replicate n row.cells1d } } }

/-- A deterministic identity discretizer with no bin labels. -/
def identityDiscretizer : DiscretizerClass :=
  { isSubclassOfDiscretization := true
    make := fun _ _ _ _ => { discretize := fun a => a, feature_value_names := [] } }

/-- A local model with a well-formed method surface and trivial state. -/
def trivialLocalModel : LocalModelClass :=
  { sig := okLocalSig, make := fun _ => [], fit := fun st _ _ => st }

/-- An explainer delegate returning an empty attribution mapping. -/
def trivialExplainer : ExplainerClass :=
  { make := fun _ _ _ _ _ => { explain_instance := fun _ _ => [] } }

/-- Engine construction over `numDataset` with the malformed-probability
global model, all names left to be synthesized. -/
def initBad : PyM Blimey :=
  blimeyInit numDataset identityAugmentor identityDiscretizer trivialExplainer
    badProbaModel trivialLocalModel none none none []

/-- A full explanation request against the engine of `initBad`. -/
def runBad : PyM Explanations :=
  PyM.bindM initBad fun b => explainInstance b (some numRow) (some 3)

/-- The neighborhood the identity augmentor produces in `runBad`. -/
def sampledBad : NPArray :=
  { dtype := NPDtype.base NPKind.numerical
    shape := [3, 2]
    rows := List.replicate 3 [NPValue.num 10, NPValue.num 20] }

/-- A 3-row structured (heterogeneous) dataset with a numerical field "a"
and a textual field "b". -/
def structDataset : NPArray :=
  { dtype := NPDtype.structured [("a", NPKind.numerical), ("b", NPKind.textual)]
    shape := [3]
    rows := [[NPValue.num 1, NPValue.str "x"], [NPValue.num 2, NPValue.str "y"],
             [NPValue.num 3, NPValue.str "x"]] }

/-- Engine construction over the structured dataset with `feature_names`
absent. -/
def initStruct : PyM Blimey :=
  blimeyInit structDataset identityAugmentor identityDiscretizer trivialExplainer
    badProbaModel trivialLocalModel none none none []

/-- The row-sum of a probability row (textual cells contribute nothing;
they never occur in a probability matrix). -/
def rowProbSum (r : List NPValue) : ℚ :=
  r.foldl
    (fun acc v =>
      match v with
      | NPValue.num q => acc + q
      | NPValue.str _ => acc)
    0

/-- The claim's notion of a valid probability row: every entry a
non-negative number and the row sum within 1e-6 of 1. -/
def isValidProbRow (r : List NPValue) : Bool :=
  (r.all fun v =>
    match v with
    | NPValue.num q => decide (0 ≤ q)
    | NPValue.str _ => false) &&
  decide (|rowProbSum r - 1| ≤ 1 / 1000000)

/-- The claim's notion of a valid probability matrix: every row valid. -/
def validProbMatrix (m : NPArray) : Bool :=
  m.rows.all isValidProbRow

/-- Whether a result is an `IncompatibleModelError`. -/
def resIsIncompatibleModel {α : Type} (r : Except PyError α) : Bool :=
  match r with
  | Except.error (PyError.incompatibleModel _) => true
  | _ => false

/-- The argument of a `predict_proba` invocation event. -/
def predictProbaArg : Event → Option NPArray
  | Event.predictProbaCall a => some a
  | _ => none

/-- The class index of a local-model `fit` invocation event. -/
def localFitIndex : Event → Option Nat
  | Event.localFitCall i _ => some i
  | _ => none

/-- The class index and fit targets of a local-model `fit` invocation
event. -/
def localFitEntry : Event → Option (Nat × List NPValue)
  | Event.localFitCall i t => some (i, t)
  | _ => none

/-- A fallback engine value, used only to extract the engine from a
construction run that is known to succeed. -/
def defaultBlimey : Blimey :=
  { kwargs := []
    dataset := emptyNPArray
    is_structured := false
    categorical_indices := []
    global_model := badProbaModel
    augmentor := identityAugmentor.make emptyNPArray [] []
    discretizer := identityDiscretizer.make emptyNPArray [] none []
    discretized_dataset := emptyNPArray
    explainer_class := trivialExplainer
    n_classes := 0
    local_model := trivialLocalModel
    indices := []
    feature_names := []
    class_names := [] }

/-- The engine constructed by `initBad`. -/
def engineBad : Blimey :=
  match initBad.res with
  | Except.ok b => b
  | Except.error _ => defaultBlimey


/-!  General lemmas about the embedded primitives. -/

@[simp] theorem tupleGet_obs (t : List Nat) (i : Nat) : (tupleGet t i).obs = [] := by
  unfold tupleGet
  split <;> rfl

theorem tupleGet_res (t : List Nat) (i : Nat) :
    (tupleGet t i).res =
      match t.get? i with
      | some v => Except.ok v
      | none => Except.error (PyError.indexError "tuple index out of range") := by
  unfold tupleGet
  cases h : t.get? i <;> simp [h]

theorem tupleGet_ok_iff (t : List Nat) (i : Nat) (v : Nat) :
    (tupleGet t i).res = Except.ok v ↔ t.get? i = some v := by
  unfold tupleGet
  cases h : t.get? i <;> simp [h]

@[simp] theorem require_obs (c : Bool) (e : PyError) : (require c e).obs = [] := by
  cases c <;> rfl

@[simp] theorem require_res (c : Bool) (e : PyError) :
    (require c e).res = if c then Except.ok () else Except.error e := by
  cases c <;> rfl

@[simp] theorem maybeWarnWidening_res (c : Bool) (m : String) :
    (maybeWarnWidening c m).res = Except.ok () := by
  cases c <;> rfl

@[simp] theorem maybeWarnWidening_obs (c : Bool) (m : String) :
    (maybeWarnWidening c m).obs = if c then [Obs.warning m] else [] := by
  cases c <;> rfl

@[simp] theorem bindM_pure_obs {α β : Type} (x : PyM α) (f : α → β) :
    (PyM.bindM x fun v => pure (f v)).obs = x.obs := by
  cases hx : x.res <;> simp [PyM.bindM_obs, hx]

@[simp] theorem eventsOf_cons_event (e : Event) (l : List Obs) :
    eventsOf (Obs.event e :: l) = e :: eventsOf l := rfl

@[simp] theorem eventsOf_cons_warning (m : String) (l : List Obs) :
    eventsOf (Obs.warning m :: l) = eventsOf l := rfl

@[simp] theorem warningsOf_cons_event (e : Event) (l : List Obs) :
    warningsOf (Obs.event e :: l) = warningsOf l := rfl

@[simp] theorem warningsOf_cons_warning (m : String) (l : List Obs) :
    warningsOf (Obs.warning m :: l) = m :: warningsOf l := rfl

@[simp] theorem eventsOf_nil : eventsOf [] = [] := rfl

@[simp] theorem warningsOf_nil : warningsOf [] = [] := rfl

@[simp] theorem eventsOf_append (x y : List Obs) :
    eventsOf (x ++ y) = eventsOf x ++ eventsOf y := by
  simp [eventsOf]

@[simp] theorem warningsOf_append (x y : List Obs) :
    warningsOf (x ++ y) = warningsOf x ++ warningsOf y := by
  simp [warningsOf]

@[simp] theorem cmf_suppressed_obs (sig : ModelSig) (rp : Bool) :
    (check_model_functionality sig rp true).obs = [] := by
  unfold check_model_functionality
  simp [PyM.bindM_obs]

@[simp] theorem checkGlobalModel_obs (g : GlobalModel) :
    (checkGlobalModel g).obs = [] := by
  unfold checkGlobalModel
  simp only [PyM.bind_eq_bindM, PyM.bindM_obs, cmf_suppressed_obs, require_obs]
  split <;> rfl

@[simp] theorem checkLocalModel_obs (l : LocalModelClass) :
    (checkLocalModel l).obs = [] := by
  unfold checkLocalModel
  simp

theorem is_2d_array_obs_of_ok (x : NPArray) (h : (is_2d_array x).res = Except.ok true) :
    (is_2d_array x).obs = [] := by
  unfold is_2d_array at h ⊢
  repeat' split at h <;> simp_all [PyM.bindM_obs, PyM.bindM_res]

@[simp] theorem validIndices_obs (arr : NPArray) : (validIndices arr).obs = [] := by
  unfold validIndices
  split
  · rfl
  · simp only [PyM.bind_eq_bindM, PyM.bindM_obs, tupleGet_obs, PyM.pure_obs]
    split <;> rfl

theorem get_invalid_indices_obs_of_ok (arr : NPArray) (idxs : List Index)
    (v : List Index) (h : (get_invalid_indices arr idxs).res = Except.ok v) :
    (get_invalid_indices arr idxs).obs = [] := by
  unfold get_invalid_indices at h ⊢
  simp only [PyM.bind_eq_bindM, PyM.bindM_res, PyM.bindM_obs, require_res, require_obs,
    PyM.pure_obs, validIndices_obs] at h ⊢
  repeat' split at h
  all_goals try (rcases htg : (tupleGet arr.shape 1).res with e | vv <;> simp [htg])
  all_goals simp_all [is_2d_array_obs_of_ok]

theorem checkCategoricalIndices_obs_of_ok (d : NPArray) (ci : Option (List Index))
    (v : Unit) (h : (checkCategoricalIndices d ci).res = Except.ok v) :
    (checkCategoricalIndices d ci).obs = [] := by
  unfold checkCategoricalIndices at h ⊢
  cases ci with
  | none => rfl
  | some cil =>
      simp only [PyM.bind_eq_bindM, PyM.bindM_res, PyM.bindM_obs, require_obs] at h ⊢
      repeat' split at h
      all_goals simp_all [get_invalid_indices_obs_of_ok]

@[simp] theorem featuresNumberOf_obs (d : NPArray) : (featuresNumberOf d).obs = [] := by
  unfold featuresNumberOf
  split <;> simp

@[simp] theorem checkFeatureNamesLength_obs (n : Nat) (fn : Option (List (Option String))) :
    (checkFeatureNamesLength n fn).obs = [] := by
  unfold checkFeatureNamesLength
  cases fn <;> simp

@[simp] theorem indicesListOf_obs (d : NPArray) : (indicesListOf d).obs = [] := by
  unfold indicesListOf
  split
  · rfl
  · simp only [PyM.bind_eq_bindM, bindM_pure_obs, tupleGet_obs]

@[simp] theorem featureNamesBaseOf_obs (d : NPArray) (fn : Option (List (Option String))) :
    (featureNamesBaseOf d fn).obs = [] := by
  unfold featureNamesBaseOf
  cases fn
  · simp only [PyM.bind_eq_bindM, bindM_pure_obs, tupleGet_obs]
  · rfl

theorem indices_by_type_obs_of_ok (arr : NPArray) (p : List Index × List Index)
    (h : (indices_by_type arr).res = Except.ok p) :
    (indices_by_type arr).obs = [] := by
  unfold indices_by_type at h ⊢
  simp only [PyM.bind_eq_bindM, PyM.bindM_res, PyM.bindM_obs, require_res, require_obs,
    PyM.pure_obs, PyM.pure_res, tupleGet_obs] at h ⊢
  repeat' split at h
  all_goals try (rcases htg : (tupleGet arr.shape 1).res with e | vv <;> simp [htg])
  all_goals simp_all [is_2d_array_obs_of_ok]

theorem inputIsValid_ok_obs (d : NPArray) (a : AugmentorClass)
    (di : DiscretizerClass) (g : GlobalModel) (l : LocalModelClass)
    (ci : Option (List Index)) (cn : Option (List (Option String)))
    (fn : Option (List (Option String))) (v : Bool)
    (h : (inputIsValid d a di g l ci cn fn).res = Except.ok v) :
    (inputIsValid d a di g l ci cn fn).obs = [] := by
  unfold inputIsValid at h ⊢
  simp only [PyM.bind_eq_bindM, PyM.bindM_res, PyM.bindM_obs, require_res, require_obs,
    PyM.pure_obs, PyM.pure_res, tupleGet_obs, checkGlobalModel_obs, checkLocalModel_obs,
    featuresNumberOf_obs, checkFeatureNamesLength_obs, checkOptionalStringList_eq] at h ⊢
  repeat' split at h
  all_goals
    simp_all [is_2d_array_obs_of_ok, checkCategoricalIndices_obs_of_ok]

/-- Full inversion of a successful engine construction: the engine fields
and the recorded observations in terms of the construction inputs. -/
theorem blimeyInit_ok_inv
    (d : NPArray) (a : AugmentorClass) (di : DiscretizerClass) (e : ExplainerClass)
    (g : GlobalModel) (l : LocalModelClass) (ci : Option (List Index))
    (cn : Option (List (Option String))) (fn : Option (List (Option String))) (k : Kwargs)
    (obs : List Obs) (b : Blimey)
    (h : blimeyInit d a di e g l ci cn fn k = ⟨obs, Except.ok b⟩) :
    ∃ pair : List Index × List Index,
      (indices_by_type d).res = Except.ok pair ∧
      b.dataset = d ∧
      b.is_structured = is_structured_array d ∧
      b.global_model = g ∧
      b.local_model = l ∧
      b.explainer_class = e ∧
      b.kwargs = k ∧
      b.categorical_indices = (resolveCategorical pair.2 ci).1 ∧
      (g.predict_proba d).shape.get? 1 = some b.n_classes ∧
      b.class_names = synthesizeNames "class "
        (match cn with
         | none => List.replicate b.n_classes none
         | some cnl => cnl) ∧
      eventsOf obs = [Event.augmentorMake, Event.discretizerMake,
        Event.discretizeCall d, Event.predictProbaCall d] ∧
      warningsOf obs =
        (if (resolveCategorical pair.2 ci).2 then [wideningWarning] else []) := by
  have hres : (blimeyInit d a di e g l ci cn fn k).res = Except.ok b := by rw [h]
  have hobs : (blimeyInit d a di e g l ci cn fn k).obs = obs := by rw [h]
  unfold blimeyInit at hres hobs
  simp only [PyM.bind_eq_bindM, PyM.bindM_res, PyM.bindM_obs, PyM.emit_res, PyM.emit_obs,
    PyM.pure_res, PyM.pure_obs, maybeWarnWidening_res, maybeWarnWidening_obs,
    tupleGet_obs, indicesListOf_obs, featureNamesBaseOf_obs] at hres hobs
  repeat' split at hres
  all_goals try (cases hres)
  all_goals subst hobs
  all_goals
    refine ⟨_, by assumption, ?_, ?_, ?_, ?_, ?_, ?_, ?_, ?_, ?_, ?_, ?_⟩
  all_goals
    try simp_all [tupleGet_ok_iff, tupleGet_res, inputIsValid_ok_obs,
      indices_by_type_obs_of_ok, apply_ite eventsOf, apply_ite warningsOf]
  all_goals
    rcases hg : (g.predict_proba d).shape[1]? with _ | vv <;> simp_all

/-!  Claim C1. -/

/-- C1 counterexample: the claim says that a `predict_proba` matrix with a
row that is not a valid probability distribution makes `explain_instance`
raise an incompatible-model error before fitting any local model.  On the
code, an engine whose global model returns rows `[0.45, 0.45]` (row sum
0.9) completes the very same request normally: the run returns a result,
the malformed matrix (produced for the recorded neighborhood `sampledBad`)
fails the claim's own validity predicate, and the raw malformed columns
were used as local-model fit targets for both classes. -/
theorem C1_counterexample :
    runBad.res = Except.ok [("class 0", []), ("class 1", [])] ∧
    (eventsOf runBad.obs).filterMap predictProbaArg = [numDataset, sampledBad] ∧
    validProbMatrix (badProbaModel.predict_proba sampledBad) = false ∧
    (eventsOf runBad.obs).filterMap localFitEntry =
      [(0, [NPValue.num (9 / 20), NPValue.num (9 / 20), NPValue.num (9 / 20)]),
       (1, [NPValue.num (9 / 20), NPValue.num (9 / 20), NPValue.num (9 / 20)])] := by
  refine ⟨rfl, rfl, ?_, rfl⟩
  simp [validProbMatrix, isValidProbRow, rowProbSum, badProbaModel, sampledBad]
  intro _
  refine lt_abs.mpr (Or.inr ?_)
  norm_num

@[simp] theorem resIsIncompat_ok {α : Type} (a : α) :
    resIsIncompatibleModel (Except.ok a : Except PyError α) = false := rfl

@[simp] theorem resIsIncompat_shape {α : Type} (m : String) :
    resIsIncompatibleModel (Except.error (PyError.incorrectShape m) : Except PyError α) =
      false := rfl

@[simp] theorem resIsIncompat_type {α : Type} (m : String) :
    resIsIncompatibleModel (Except.error (PyError.typeError m) : Except PyError α) =
      false := rfl

@[simp] theorem resIsIncompat_value {α : Type} (m : String) :
    resIsIncompatibleModel (Except.error (PyError.valueError m) : Except PyError α) =
      false := rfl

@[simp] theorem resIsIncompat_index {α : Type} (m : String) :
    resIsIncompatibleModel (Except.error (PyError.indexError m) : Except PyError α) =
      false := rfl

@[simp] theorem resIsIncompat_key {α : Type} (m : String) :
    resIsIncompatibleModel (Except.error (PyError.keyError m) : Except PyError α) =
      false := rfl

theorem noIncompat_bindM {α β : Type} (x : PyM α) (f : α → PyM β)
    (hx : resIsIncompatibleModel x.res = false)
    (hf : ∀ a, resIsIncompatibleModel (f a).res = false) :
    resIsIncompatibleModel (PyM.bindM x f).res = false := by
  cases h : x.res with
  | error e =>
      rw [h] at hx
      simp only [PyM.bindM_res, h]
      cases e <;> exact hx
  | ok a =>
      simp only [PyM.bindM_res, h]
      exact hf a

theorem noIncompat_require_of (c : Bool) (e : PyError)
    (he : resIsIncompatibleModel (Except.error e : Except PyError Unit) = false) :
    resIsIncompatibleModel (require c e).res = false := by
  cases c <;> simp [require, he]

theorem noIncompat_tupleGet (t : List Nat) (i : Nat) :
    resIsIncompatibleModel (tupleGet t i).res = false := by
  unfold tupleGet
  split <;> simp

theorem noIncompat_pyListGet {α : Type} (l : List α) (i : Nat) :
    resIsIncompatibleModel (pyListGet l i).res = false := by
  unfold pyListGet
  split <;> simp

theorem noIncompat_pyIntOfValue (v : NPValue) :
    resIsIncompatibleModel (pyIntOfValue v).res = false := by
  cases v <;> simp [pyIntOfValue]

theorem noIncompat_ndarrayGet1d (a : NPArray) (idx : Index) :
    resIsIncompatibleModel (ndarrayGet1d a idx).res = false := by
  unfold ndarrayGet1d
  repeat' split
  all_goals simp

theorem noIncompat_probsColumn (probs : NPArray) (i : Nat) :
    resIsIncompatibleModel (probsColumn probs i).res = false := by
  unfold probsColumn
  split <;> simp

theorem noIncompat_is_1d_array (a : Option NPArray) :
    resIsIncompatibleModel (is_1d_array a).res = false := by
  unfold is_1d_array
  cases a with
  | none => simp
  | some arr =>
      simp only []
      repeat' split
      all_goals simp [PyM.bindM_res]

theorem noIncompat_validation (b : Blimey) (r : Option NPArray) (sn : Option Int) :
    resIsIncompatibleModel (explainInstanceIsInputValid b r sn).res = false := by
  unfold explainInstanceIsInputValid
  refine noIncompat_bindM _ _ (noIncompat_is_1d_array r) fun is1d => ?_
  refine noIncompat_bindM _ _ (noIncompat_require_of _ _ (by simp)) fun _ => ?_
  refine noIncompat_bindM _ _ (noIncompat_require_of _ _ (by simp)) fun _ => ?_
  refine noIncompat_bindM _ _ ?_ fun _ => ?_
  · split
    · refine noIncompat_bindM _ _ (noIncompat_tupleGet _ _) fun rowLen => ?_
      refine noIncompat_bindM _ _ (noIncompat_tupleGet _ _) fun cols => ?_
      exact noIncompat_require_of _ _ (by simp)
    · simp
  · cases sn with
    | none => simp
    | some n =>
        exact noIncompat_bindM _ _ (noIncompat_require_of _ _ (by simp)) fun _ => by simp

theorem noIncompat_buildNames (b : Blimey) (discRow : NPArray)
    (l : List (Nat × Index)) :
    resIsIncompatibleModel (buildDiscretizedFeatureNames b discRow l).res = false := by
  induction l with
  | nil => simp [buildDiscretizedFeatureNames]
  | cons p rest ih =>
      unfold buildDiscretizedFeatureNames
      refine noIncompat_bindM _ _ (noIncompat_ndarrayGet1d _ _) fun v => ?_
      refine noIncompat_bindM _ _ (noIncompat_pyIntOfValue _) fun dv => ?_
      refine noIncompat_bindM _ _ ?_ fun nm => ?_
      · split
        · split <;> simp
        · exact noIncompat_pyListGet _ _
      · exact noIncompat_bindM _ _ ih fun _ => by simp

theorem noIncompat_classLoop (b : Blimey) (bin probs : NPArray)
    (dfn : List String) (discRow : NPArray) (is : List Nat) (acc : Explanations) :
    resIsIncompatibleModel (classLoop b bin probs dfn discRow is acc).res = false := by
  induction is generalizing acc with
  | nil => simp [classLoop]
  | cons i rest ih =>
      unfold classLoop
      refine noIncompat_bindM _ _ (by simp) fun _ => ?_
      refine noIncompat_bindM _ _ (noIncompat_probsColumn _ _) fun t => ?_
      refine noIncompat_bindM _ _ (by simp) fun _ => ?_
      refine noIncompat_bindM _ _ (by simp) fun _ => ?_
      refine noIncompat_bindM _ _ (by simp) fun _ => ?_
      refine noIncompat_bindM _ _ (noIncompat_pyListGet _ _) fun nm => ?_
      exact ih _

/-- C1 amended: the engine applies no validity check whatsoever to the
probability matrix — `explain_instance` can never raise an
`IncompatibleModelError`, whatever the engine value and arguments; every
exception it can raise is a shape, type, value, index or key error. -/
theorem C1_no_probability_check (b : Blimey) (r : Option NPArray) (sn : Option Int) :
    resIsIncompatibleModel (explainInstance b r sn).res = false := by
  unfold explainInstance explainInstanceCore
  refine noIncompat_bindM _ _ ?_ fun out => by simp
  refine noIncompat_bindM _ _ (noIncompat_validation b r sn) fun _ => ?_
  refine noIncompat_bindM _ _ (by simp) fun _ => ?_
  refine noIncompat_bindM _ _ (by simp) fun _ => ?_
  refine noIncompat_bindM _ _ (by simp) fun _ => ?_
  refine noIncompat_bindM _ _ (by simp) fun _ => ?_
  refine noIncompat_bindM _ _ (noIncompat_buildNames _ _ _) fun dfn => ?_
  exact noIncompat_bindM _ _ (noIncompat_classLoop _ _ _ _ _ _ _) fun _ => by simp

/-!  Claim C2, counterexample part. -/

/-- C2 counterexample: the claim says the class count is determined by one
probability call on a single row of the dataset.  On the code the single
recorded construction-time `predict_proba` call receives the entire
3-row dataset, not a single row (the class count does equal the column
count of the returned matrix). -/
theorem C2_counterexample :
    (eventsOf initBad.obs).filterMap predictProbaArg = [numDataset] ∧
    numDataset.rows.length = 3 ∧
    engineBad.n_classes = 2 := ⟨rfl, rfl, rfl⟩

/-- C2 amended: the class count is determined by a single construction-time
`predict_proba` call whose argument is the entire dataset, and equals the
number of columns (`shape[1]`) of the matrix that call returns. -/
theorem C2_predict_proba_full_dataset
    (d : NPArray) (a : AugmentorClass) (di : DiscretizerClass) (e : ExplainerClass)
    (g : GlobalModel) (l : LocalModelClass) (ci : Option (List Index))
    (cn : Option (List (Option String))) (fn : Option (List (Option String))) (k : Kwargs)
    (obs : List Obs) (b : Blimey)
    (h : blimeyInit d a di e g l ci cn fn k = ⟨obs, Except.ok b⟩) :
    (eventsOf obs).filterMap predictProbaArg = [d] ∧
    (g.predict_proba d).shape.get? 1 = some b.n_classes := by
  obtain ⟨pair, hidx, hds, hstr, hgm, hlm, hex, hkw, hcat, hncls, hcn, hev, hw⟩ :=
    blimeyInit_ok_inv d a di e g l ci cn fn k obs b h
  refine ⟨?_, hncls⟩
  rw [hev]
  rfl

theorem C2_witness :
    (eventsOf initBad.obs).filterMap predictProbaArg = [numDataset] ∧
    (badProbaModel.predict_proba numDataset).shape.get? 1 = some engineBad.n_classes :=
  C2_predict_proba_full_dataset numDataset identityAugmentor identityDiscretizer
    trivialExplainer badProbaModel trivialLocalModel none none none []
    initBad.obs engineBad rfl

/-!  Claim C4. -/

theorem mem_warning_iff (m : String) (l : List Obs) :
    Obs.warning m ∈ l ↔ m ∈ warningsOf l := by
  unfold warningsOf
  rw [List.mem_filterMap]
  constructor
  · intro h
    exact ⟨Obs.warning m, h, rfl⟩
  · rintro ⟨o, ho, hm⟩
    cases o with
    | warning w =>
        simp only [Option.some.injEq] at hm
        rwa [hm] at ho
    | event e => simp at hm

theorem resolveCategorical_widened_iff (nonNum : List Index) (declared : List Index) :
    (resolveCategorical nonNum (some declared)).2 = true ↔
      ∃ i ∈ nonNum, ¬ i ∈ declared := by
  show (! (nonNum.filter fun i => ! listElem i declared).isEmpty) = true ↔ _
  rw [Bool.not_eq_true', Bool.eq_false_iff, Ne, List.isEmpty_iff, List.filter_eq_nil_iff]
  push_neg
  constructor
  · rintro ⟨i, hi, hp⟩
    exact ⟨i, hi, fun hc => by simp [(listElem_iff i declared).mpr hc] at hp⟩
  · rintro ⟨i, hi, hni⟩
    refine ⟨i, hi, ?_⟩
    rw [Bool.not_eq_true', Bool.eq_false_iff, Ne, listElem_iff]
    exact hni

/-- C4 amended: for every successful construction with a declared
categorical-index list, the resolved categorical index set is exactly the
union of the declared indices with the dataset's non-numerical (text-typed)
column indices — hence a superset of the text-typed ones — re-resolving the
resolved set changes nothing, and the widening warning is emitted exactly
when some text-typed column is missing from the declared list.  (The
claim's concrete instance is amended: for a homogeneous dataset a
text-typed column forces every column to be text-typed, because numpy gives
the whole array one dtype, so declaring [] over a 3x2 text dataset resolves
to {0, 1}, not {1}; see the counterexample.) -/
theorem C4_categorical_resolution
    (d : NPArray) (a : AugmentorClass) (di : DiscretizerClass) (e : ExplainerClass)
    (g : GlobalModel) (l : LocalModelClass) (declared : List Index)
    (cn : Option (List (Option String))) (fn : Option (List (Option String))) (k : Kwargs)
    (obs : List Obs) (b : Blimey)
    (h : blimeyInit d a di e g l (some declared) cn fn k = ⟨obs, Except.ok b⟩) :
    ∃ pair : List Index × List Index,
      (indices_by_type d).res = Except.ok pair ∧
      (∀ i : Index, i ∈ b.categorical_indices ↔ (i ∈ pair.2 ∨ i ∈ declared)) ∧
      (∀ i : Index, i ∈ pair.2 → i ∈ b.categorical_indices) ∧
      (∀ i : Index,
        i ∈ (resolveCategorical pair.2 (some b.categorical_indices)).1 ↔
          i ∈ b.categorical_indices) ∧
      ((Obs.warning wideningWarning ∈ obs) ↔ ∃ i ∈ pair.2, ¬ i ∈ declared) := by
  obtain ⟨pair, hidx, hds, hstr, hgm, hlm, hex, hkw, hcat, hncls, hcn, hev, hw⟩ :=
    blimeyInit_ok_inv d a di e g l (some declared) cn fn k obs b h
  refine ⟨pair, hidx, ?_, ?_, ?_, ?_⟩
  · intro i
    rw [hcat]
    simp [resolveCategorical, List.mem_dedup]
  · intro i hi
    rw [hcat]
    simp [resolveCategorical, List.mem_dedup]
    exact Or.inl hi
  · intro i
    rw [hcat]
    simp [resolveCategorical, List.mem_dedup]
  · rw [mem_warning_iff, hw, ← resolveCategorical_widened_iff pair.2 declared]
    by_cases hf : (resolveCategorical pair.2 (some declared)).2 = true <;> simp [hf]

/-- A 3-row, 2-column homogeneous dataset whose cells are text — and whose
column 1 is therefore text-typed, as is column 0, the dtype being shared. -/
def textDataset : NPArray :=
  { dtype := NPDtype.base NPKind.textual
    shape := [3, 2]
    rows := [[NPValue.str "a", NPValue.str "b"], [NPValue.str "c", NPValue.str "d"],
             [NPValue.str "e", NPValue.str "f"]] }

/-- Engine construction over `textDataset` with categorical indices
declared as the empty list. -/
def initTextDecl : PyM Blimey :=
  blimeyInit textDataset identityAugmentor identityDiscretizer trivialExplainer
    badProbaModel trivialLocalModel (some []) none none []

/-- The engine constructed by `initTextDecl`. -/
def engineTextDecl : Blimey :=
  match initTextDecl.res with
  | Except.ok b => b
  | Except.error _ => defaultBlimey

/-- C4 counterexample: the claim's concrete instance says a dataset whose
column 1 is text-typed, with declared categorical indices `[]`, resolves to
the categorical set `{1}`.  On the code, a homogeneous dataset has a single
dtype, so its column 1 being text-typed makes column 0 text-typed as well:
construction succeeds and warns as claimed, but the resolved set is
`{0, 1}`, which contains column 0 and therefore is not `{1}`. -/
theorem C4_counterexample :
    textDataset.dtype = NPDtype.base NPKind.textual ∧
    textDataset.shape = [3, 2] ∧
    initTextDecl.res.isOk = true ∧
    Obs.warning wideningWarning ∈ initTextDecl.obs ∧
    engineTextDecl.categorical_indices = [Sum.inl 0, Sum.inl 1] ∧
    (Sum.inl 0 : Index) ∈ engineTextDecl.categorical_indices ∧
    (Sum.inl 0 : Index) ≠ (Sum.inl 1 : Index) := by
  have hobs : initTextDecl.obs =
      [Obs.warning wideningWarning, Obs.event Event.augmentorMake,
       Obs.event Event.discretizerMake, Obs.event (Event.discretizeCall textDataset),
       Obs.event (Event.predictProbaCall textDataset)] := rfl
  have hcat : engineTextDecl.categorical_indices = [Sum.inl 0, Sum.inl 1] := rfl
  refine ⟨rfl, rfl, rfl, ?_, hcat, ?_, by simp⟩
  · rw [hobs]
    exact List.mem_cons_self _ _
  · rw [hcat]
    exact List.mem_cons_self _ _

theorem C4_witness :
    ∃ pair : List Index × List Index,
      (indices_by_type textDataset).res = Except.ok pair ∧
      (∀ i : Index, i ∈ engineTextDecl.categorical_indices ↔
        (i ∈ pair.2 ∨ i ∈ ([] : List Index))) ∧
      (∀ i : Index, i ∈ pair.2 → i ∈ engineTextDecl.categorical_indices) ∧
      (∀ i : Index,
        i ∈ (resolveCategorical pair.2 (some engineTextDecl.categorical_indices)).1 ↔
          i ∈ engineTextDecl.categorical_indices) ∧
      ((Obs.warning wideningWarning ∈ initTextDecl.obs) ↔
        ∃ i ∈ pair.2, ¬ i ∈ ([] : List Index)) :=
  C4_categorical_resolution textDataset identityAugmentor identityDiscretizer
    trivialExplainer badProbaModel trivialLocalModel [] none none []
    initTextDecl.obs engineTextDecl rfl

/-!  Claim C3. -/

/-- C3: for a heterogeneous (structured) dataset with `feature_names`
absent, construction does not synthesize default feature names; it raises
`IndexError: tuple index out of range` from `self.dataset.shape[1]`
(blimey.py line 293), although `_input_is_valid` itself shows the intended
structured-aware feature count.  The same engine construction succeeds when
an explicit feature-name list is supplied. -/
theorem C3_structured_default_feature_names_bug :
    is_structured_array structDataset = true ∧
    initStruct.res = Except.error (PyError.indexError "tuple index out of range") ∧
    (blimeyInit structDataset identityAugmentor identityDiscretizer trivialExplainer
      badProbaModel trivialLocalModel none none (some [none, none]) []).res.isOk = true :=
  ⟨rfl, rfl, rfl⟩

/-!  Claim C8. -/

/-- C8: the engine state coming out of an explanation call is the engine
state that went in — the source's `explain_instance` assigns only
call-local variables, so every construction-time attribute (dataset,
categorical indices, discretized dataset, names, class count, keyword
configuration, collaborator references) is unchanged and all per-call
working data is local to the call. -/
theorem C8_engine_state_unchanged (b : Blimey) (r : Option NPArray)
    (sn : Option Int) (out : Explanations × Blimey)
    (h : (explainInstanceCore b r sn).res = Except.ok out) : out.2 = b := by
  simp only [explainInstanceCore, PyM.bind_eq_bindM, PyM.bindM_res] at h
  repeat' split at h
  all_goals try (cases h)
  all_goals rfl

theorem C8_witness :
    (([("class 0", []), ("class 1", [])], engineBad) : Explanations × Blimey).2 =
      engineBad :=
  C8_engine_state_unchanged engineBad (some numRow) (some 3)
    ([("class 0", []), ("class 1", [])], engineBad) rfl

/-!  Claim C10. -/

/-- C10: calling `explain_instance` without a data row (the `None` default)
raises the generic `TypeError` of the 1-D check, "The input should be a
numpy array-like.", and no collaborator is invoked. -/
theorem C10_missing_data_row (b : Blimey) (sn : Option Int) :
    (explainInstance b none sn).res =
      Except.error (PyError.typeError "The input should be a numpy array-like.") ∧
    eventsOf (explainInstance b none sn).obs = [] := ⟨rfl, rfl⟩


/-!  Claim C7. -/

theorem noIncompat_ne {α : Type} (x : Except PyError α) (m : String)
    (hx : resIsIncompatibleModel x = false) :
    x ≠ Except.error (PyError.incompatibleModel m) := by
  intro hc
  rw [hc] at hx
  simp [resIsIncompatibleModel] at hx

theorem noIncompat_is_2d_array (x : NPArray) :
    resIsIncompatibleModel (is_2d_array x).res = false := by
  unfold is_2d_array
  repeat' split
  all_goals simp [PyM.bindM_res]

theorem noIncompat_get_invalid_indices (arr : NPArray) (idxs : List Index) :
    resIsIncompatibleModel (get_invalid_indices arr idxs).res = false := by
  unfold get_invalid_indices
  refine noIncompat_bindM _ _ (noIncompat_is_2d_array arr) fun is2d => ?_
  refine noIncompat_bindM _ _ (by cases is2d <;> simp [require]) fun _ => ?_
  refine noIncompat_bindM _ _ ?_ fun _ => by simp
  unfold validIndices
  split
  · simp
  · exact noIncompat_bindM _ _ (noIncompat_tupleGet _ _) fun _ => by simp

theorem noIncompat_checkCategoricalIndices (d : NPArray) (ci : Option (List Index)) :
    resIsIncompatibleModel (checkCategoricalIndices d ci).res = false := by
  unfold checkCategoricalIndices
  cases ci with
  | none => simp
  | some cil =>
      refine noIncompat_bindM _ _ (noIncompat_get_invalid_indices _ _) fun inv => ?_
      cases h : inv.isEmpty <;> simp [require]

theorem noIncompat_featuresNumberOf (d : NPArray) :
    resIsIncompatibleModel (featuresNumberOf d).res = false := by
  unfold featuresNumberOf
  split
  · simp
  · exact noIncompat_tupleGet _ _

theorem noIncompat_checkFeatureNamesLength (n : Nat)
    (fn : Option (List (Option String))) :
    resIsIncompatibleModel (checkFeatureNamesLength n fn).res = false := by
  unfold checkFeatureNamesLength
  cases fn with
  | none => simp
  | some l => by_cases hl : l.length = n <;> simp [require, hl]

theorem noIncompat_indices_by_type (arr : NPArray) :
    resIsIncompatibleModel (indices_by_type arr).res = false := by
  unfold indices_by_type
  refine noIncompat_bindM _ _ (noIncompat_is_2d_array arr) fun is2d => ?_
  refine noIncompat_bindM _ _ (by cases is2d <;> simp [require]) fun _ => ?_
  split
  · simp
  · refine noIncompat_bindM _ _ (noIncompat_tupleGet _ _) fun _ => ?_
    split <;> simp

theorem noIncompat_indicesListOf (d : NPArray) :
    resIsIncompatibleModel (indicesListOf d).res = false := by
  unfold indicesListOf
  split
  · simp
  · exact noIncompat_bindM _ _ (noIncompat_tupleGet _ _) fun _ => by simp

theorem noIncompat_featureNamesBaseOf (d : NPArray)
    (fn : Option (List (Option String))) :
    resIsIncompatibleModel (featureNamesBaseOf d fn).res = false := by
  unfold featureNamesBaseOf
  cases fn with
  | none => exact noIncompat_bindM _ _ (noIncompat_tupleGet _ _) fun _ => by simp
  | some l => simp

/-- The exact global-model method surface the source's
`check_model_functionality` demands: `fit` with 2 required parameters,
`predict` with 1, `predict_proba` with 1. -/
def goodGlobalSig (sig : ModelSig) : Bool :=
  (decide (sig.fit = some ⟨2⟩)) && (decide (sig.predict = some ⟨1⟩)) &&
    (decide (sig.predict_proba = some ⟨1⟩))

theorem cmf_global_res (sig : ModelSig) :
    (check_model_functionality sig true true).res = Except.ok (goodGlobalSig sig) := by
  rcases sig with ⟨f, p, pp⟩
  unfold check_model_functionality checkMethod goodGlobalSig
  rcases f with _ | ⟨⟨fr⟩⟩ <;> rcases p with _ | ⟨⟨pr⟩⟩ <;> rcases pp with _ | ⟨⟨ppr⟩⟩ <;>
    simp [PyM.bind_eq_bindM, PyM.bindM_res, List.all]
  all_goals split_ifs <;> simp_all

theorem checkGlobalModel_res (g : GlobalModel) :
    (checkGlobalModel g).res =
      if goodGlobalSig g.sig then Except.ok ()
      else Except.error (PyError.incompatibleModel globalModelErrorMsg) := by
  unfold checkGlobalModel
  simp only [PyM.bind_eq_bindM, PyM.bindM_res, cmf_global_res, require_res]

/-- C7: with an otherwise sound configuration (2-D base-typed dataset, a
valid local model), engine construction raises the hard
`IncompatibleModelError` for the global model exactly when the global model
lacks `fit`, `predict` or `predict_proba`, or one of them does not have
exactly 2, 1 and 1 required parameters respectively; and when it does
raise, no warning is emitted (the check runs with warnings suppressed). -/
theorem C7_global_model_exact_arity
    (d : NPArray) (a : AugmentorClass) (di : DiscretizerClass) (e : ExplainerClass)
    (g : GlobalModel) (l : LocalModelClass) (ci : Option (List Index))
    (cn : Option (List (Option String))) (fn : Option (List (Option String))) (k : Kwargs)
    (h2d : (is_2d_array d).res = Except.ok true) (hbase : is_base_array d = true)
    (hlocal : check_local_model_functionality l.sig = true) :
    ((blimeyInit d a di e g l ci cn fn k).res =
        Except.error (PyError.incompatibleModel globalModelErrorMsg) ↔
      ¬(g.sig.fit = some ⟨2⟩ ∧ g.sig.predict = some ⟨1⟩ ∧
        g.sig.predict_proba = some ⟨1⟩)) ∧
    (goodGlobalSig g.sig = false →
      warningsOf (blimeyInit d a di e g l ci cn fn k).obs = []) := by
  have hgood : (goodGlobalSig g.sig = true) ↔
      (g.sig.fit = some ⟨2⟩ ∧ g.sig.predict = some ⟨1⟩ ∧
        g.sig.predict_proba = some ⟨1⟩) := by
    unfold goodGlobalSig
    simp [Bool.and_eq_true, and_assoc]
  by_cases hg : goodGlobalSig g.sig = true
  · have hcond := hgood.mp hg
    have hno : resIsIncompatibleModel (blimeyInit d a di e g l ci cn fn k).res =
        false := by
      unfold blimeyInit inputIsValid
      refine noIncompat_bindM _ _ ?_ fun _ => ?_
      · refine noIncompat_bindM _ _ (noIncompat_is_2d_array d) fun is2d => ?_
        refine noIncompat_bindM _ _ (by cases is2d <;> simp [require]) fun _ => ?_
        refine noIncompat_bindM _ _
          (by cases hb : is_base_array d <;> simp [require, hb]) fun _ => ?_
        refine noIncompat_bindM _ _
          (by simp [checkGlobalModel_res, hg]) fun _ => ?_
        refine noIncompat_bindM _ _
          (by simp [checkLocalModel, require, hlocal]) fun _ => ?_
        refine noIncompat_bindM _ _ (noIncompat_checkCategoricalIndices d ci) fun _ => ?_
        refine noIncompat_bindM _ _
          (by cases a.isSubclassOfAugmentation <;> simp [require]) fun _ => ?_
        refine noIncompat_bindM _ _
          (by cases di.isSubclassOfDiscretization <;> simp [require]) fun _ => ?_
        refine noIncompat_bindM _ _ (by simp [checkOptionalStringList_eq]) fun _ => ?_
        refine noIncompat_bindM _ _ (noIncompat_featuresNumberOf d) fun nf => ?_
        refine noIncompat_bindM _ _ (noIncompat_checkFeatureNamesLength nf fn) fun _ => ?_
        simp
      · refine noIncompat_bindM _ _ (noIncompat_indices_by_type d) fun idx => ?_
        refine noIncompat_bindM _ _ (by simp [maybeWarnWidening_res]) fun _ => ?_
        refine noIncompat_bindM _ _ (by simp) fun _ => ?_
        refine noIncompat_bindM _ _ (by simp) fun _ => ?_
        refine noIncompat_bindM _ _ (by simp) fun _ => ?_
        refine noIncompat_bindM _ _ (by simp) fun _ => ?_
        refine noIncompat_bindM _ _ (noIncompat_tupleGet _ _) fun nCls => ?_
        refine noIncompat_bindM _ _ (noIncompat_indicesListOf d) fun il => ?_
        refine noIncompat_bindM _ _ (noIncompat_featureNamesBaseOf d fn) fun fb => ?_
        simp
    have hne := noIncompat_ne _ globalModelErrorMsg hno
    refine ⟨⟨fun hres => absurd hres hne, fun hn => absurd hcond hn⟩, ?_⟩
    intro hf
    rw [hf] at hg
    cases hg
  · have hg2 : goodGlobalSig g.sig = false := by
      rwa [Bool.not_eq_true] at hg
    have hres : (blimeyInit d a di e g l ci cn fn k).res =
        Except.error (PyError.incompatibleModel globalModelErrorMsg) := by
      unfold blimeyInit inputIsValid
      simp only [PyM.bind_eq_bindM, PyM.bindM_res, h2d, require_res, if_true,
        checkGlobalModel_res, hg2, hbase, if_false, Bool.false_eq_true, PyM.pure_res]
    refine ⟨⟨fun _ => fun hc => ?_, fun _ => hres⟩, fun _ => ?_⟩
    · rw [← hgood] at hc
      exact absurd hc (by rw [hg2]; simp)
    · unfold blimeyInit inputIsValid
      simp only [PyM.bind_eq_bindM, PyM.bindM_res, PyM.bindM_obs, h2d, require_res,
        require_obs, if_true, checkGlobalModel_res, checkGlobalModel_obs, hg2, hbase,
        if_false, Bool.false_eq_true, PyM.pure_res, PyM.pure_obs]
      simp [is_2d_array_obs_of_ok d h2d]


def noProbaModel : GlobalModel :=
  { sig := { fit := some ⟨2⟩, predict := some ⟨1⟩, predict_proba := none }
    predict_proba := fun a => a }

theorem C7_witness :
    ((blimeyInit numDataset identityAugmentor identityDiscretizer trivialExplainer
        noProbaModel trivialLocalModel none none none []).res =
        Except.error (PyError.incompatibleModel globalModelErrorMsg) ↔
      ¬(noProbaModel.sig.fit = some ⟨2⟩ ∧ noProbaModel.sig.predict = some ⟨1⟩ ∧
        noProbaModel.sig.predict_proba = some ⟨1⟩)) ∧
    (goodGlobalSig noProbaModel.sig = false →
      warningsOf (blimeyInit numDataset identityAugmentor identityDiscretizer
        trivialExplainer noProbaModel trivialLocalModel none none none []).obs = []) :=
  C7_global_model_exact_arity numDataset identityAugmentor identityDiscretizer
    trivialExplainer noProbaModel trivialLocalModel none none none [] rfl rfl rfl


/-!  Claim C6. -/

/-- The conditions under which the data-row part of
`_explain_instance_is_input_valid` passes: a plain 1-D array of the
dataset's exact dtype whose length (for homogeneous engines) equals the
dataset's column count. -/
def rowChecksPass (b : Blimey) (r : NPArray) : Prop :=
  is_structured_array r = false ∧ r.shape.length = 1 ∧ r.dtype = b.dataset.dtype ∧
    (b.is_structured = false → r.shape.get? 0 = b.dataset.shape.get? 1)

theorem is_1d_array_plain (r : NPArray) (h : is_structured_array r = false) :
    is_1d_array (some r) = pure (decide (r.shape.length = 1)) := by
  unfold is_1d_array
  simp [h]

theorem is_1d_array_structured_res (r : NPArray) (h : is_structured_array r = true) :
    (is_1d_array (some r)).res = Except.ok false := by
  unfold is_1d_array
  simp only [h, if_true]
  split <;> simp [PyM.bindM_res]

@[simp] theorem eventsOf_is_1d_obs (a : Option NPArray) :
    eventsOf (is_1d_array a).obs = [] := by
  unfold is_1d_array
  cases a with
  | none => rfl
  | some r =>
      by_cases h : is_structured_array r = true
      · simp only [h, if_true]
        split <;> simp [PyM.bindM_obs, eventsOf]
      · simp [h]

theorem match_obs_two {α β : Type} (x : Except PyError α) (y : Except PyError β) :
    (match x with
     | Except.error _ => ([] : List Obs)
     | Except.ok _ =>
       (match y with
        | Except.error _ => ([] : List Obs)
        | Except.ok _ => [])) = [] := by
  cases x <;> cases y <;> rfl

theorem match_obs_one {α : Type} (x : Except PyError α) :
    (match x with
     | Except.error _ => ([] : List Obs)
     | Except.ok _ => []) = [] := by
  cases x <;> rfl

theorem explainValidation_obs (b : Blimey) (r : Option NPArray) (sn : Option Int) :
    (explainInstanceIsInputValid b r sn).obs = (is_1d_array r).obs := by
  unfold explainInstanceIsInputValid
  simp only [PyM.bind_eq_bindM, PyM.bindM_obs, PyM.bindM_res, require_obs, require_res,
    PyM.pure_obs, PyM.pure_res, tupleGet_obs]
  repeat' split
  all_goals first
    | rfl
    | simp [match_obs_two, match_obs_one]

/-- C6: `explain_instance` validates its inputs before invoking any
collaborator: the validation phase records no collaborator event at all;
a non-1-D or structured `data_row` raises IncorrectShapeError; a row
whose dtype differs from the dataset's under strict comparison raises
TypeError; for homogeneous engines a row whose length differs from the
dataset's column count raises IncorrectShapeError; an absent
`samples_number` raises TypeError and an integer `samples_number`
smaller than 1 (in particular 0) raises ValueError — and in each failing
case the whole call records no collaborator event, so no collaborator is
invoked and (the call being state-preserving) no engine state is
mutated. -/
theorem C6_explain_input_validation (b : Blimey)
    (hshape : b.is_structured = false → b.dataset.shape.length = 2) :
    (∀ r sn, eventsOf (explainInstanceIsInputValid b r sn).obs = []) ∧
    (∀ r sn, is_structured_array r = false → r.shape.length ≠ 1 →
      (explainInstance b (some r) sn).res =
        Except.error (PyError.incorrectShape "data_row must be a 1-dimensional array") ∧
      eventsOf (explainInstance b (some r) sn).obs = []) ∧
    (∀ r sn, is_structured_array r = true →
      (explainInstance b (some r) sn).res =
        Except.error (PyError.incorrectShape "data_row must be a 1-dimensional array") ∧
      eventsOf (explainInstance b (some r) sn).obs = []) ∧
    (∀ r sn, is_structured_array r = false → r.shape.length = 1 →
      ¬ r.dtype = b.dataset.dtype →
      (explainInstance b (some r) sn).res =
        Except.error (PyError.typeError "The dtype of the data is different to the dtype of the data array used to initialise this class.") ∧
      eventsOf (explainInstance b (some r) sn).obs = []) ∧
    (∀ r sn c, is_structured_array r = false → r.shape = [c] →
      r.dtype = b.dataset.dtype → b.is_structured = false →
      ¬ b.dataset.shape.get? 1 = some c →
      (explainInstance b (some r) sn).res =
        Except.error (PyError.incorrectShape "The data must contain the same number of features as the dataset used to initialise this class.") ∧
      eventsOf (explainInstance b (some r) sn).obs = []) ∧
    (∀ r, rowChecksPass b r →
      (explainInstance b (some r) none).res =
        Except.error (PyError.typeError "The samples_number parameter must be an integer.") ∧
      eventsOf (explainInstance b (some r) none).obs = []) ∧
    (∀ r sn, rowChecksPass b r → sn < 1 →
      (explainInstance b (some r) (some sn)).res =
        Except.error (PyError.valueError "The samples_number parameter must be a positive integer.") ∧
      eventsOf (explainInstance b (some r) (some sn)).obs = []) := by
  refine ⟨?_, ?_, ?_, ?_, ?_, ?_, ?_⟩
  · intro r sn
    rw [explainValidation_obs]
    exact eventsOf_is_1d_obs r
  · intro r sn h1 h2
    unfold explainInstance explainInstanceCore explainInstanceIsInputValid
    rw [is_1d_array_plain r h1]
    simp [PyM.bindM_res, PyM.bindM_obs, require, h2]
  · intro r sn h1
    unfold explainInstance explainInstanceCore explainInstanceIsInputValid
    constructor
    · simp [PyM.bindM_res, is_1d_array_structured_res r h1, require]
    · simp [PyM.bindM_obs, PyM.bindM_res, is_1d_array_structured_res r h1, require]
  · intro r sn h1 h2 h3
    unfold explainInstance explainInstanceCore explainInstanceIsInputValid
    rw [is_1d_array_plain r h1]
    have h3s : ¬ b.dataset.dtype = r.dtype := fun hc => h3 hc.symm
    simp [PyM.bindM_res, PyM.bindM_obs, require, h2, are_similar_dtype_arrays, h3s]
  · intro r sn c h1 h2 h3 h4 h5
    unfold explainInstance explainInstanceCore explainInstanceIsInputValid
    rw [is_1d_array_plain r h1]
    obtain ⟨x, y, hxy⟩ := List.length_eq_two.mp (hshape h4)
    have hyc : ¬ c = y := by
      intro hc
      exact h5 (by rw [hxy, hc]; rfl)
    simp [PyM.bindM_res, PyM.bindM_obs, require, h2, are_similar_dtype_arrays, h3, h4,
      tupleGet_res, hxy, hyc]
  · rintro r ⟨h1, h2, h3, h4⟩
    unfold explainInstance explainInstanceCore explainInstanceIsInputValid
    rw [is_1d_array_plain r h1]
    obtain ⟨c, hc⟩ := List.length_eq_one.mp h2
    by_cases hbs : b.is_structured = true
    · simp [PyM.bindM_res, PyM.bindM_obs, require, h2, are_similar_dtype_arrays, h3, hbs]
    · rw [Bool.not_eq_true] at hbs
      obtain ⟨x, y, hxy⟩ := List.length_eq_two.mp (hshape hbs)
      have hcy : c = y := by
        have := h4 hbs
        rw [hc, hxy] at this
        simpa using this
      simp [PyM.bindM_res, PyM.bindM_obs, require, h2, are_similar_dtype_arrays, h3, hbs,
        tupleGet_res, hc, hxy, hcy]
  · rintro r sn ⟨h1, h2, h3, h4⟩ hsn
    unfold explainInstance explainInstanceCore explainInstanceIsInputValid
    rw [is_1d_array_plain r h1]
    obtain ⟨c, hc⟩ := List.length_eq_one.mp h2
    have hsn2 : ¬ (1 ≤ sn) := by omega
    by_cases hbs : b.is_structured = true
    · simp [PyM.bindM_res, PyM.bindM_obs, require, h2, are_similar_dtype_arrays, h3, hbs,
        hsn2]
    · rw [Bool.not_eq_true] at hbs
      obtain ⟨x, y, hxy⟩ := List.length_eq_two.mp (hshape hbs)
      have hcy : c = y := by
        have := h4 hbs
        rw [hc, hxy] at this
        simpa using this
      simp [PyM.bindM_res, PyM.bindM_obs, require, h2, are_similar_dtype_arrays, h3, hbs,
        tupleGet_res, hc, hxy, hcy, hsn2]

/-- Witness for C6 at the spec's scenario: `samples_number = 0` against
the concrete engine raises the ValueError with no collaborator event. -/
theorem C6_witness :
    (explainInstance engineBad (some numRow) (some 0)).res =
      Except.error (PyError.valueError
        "The samples_number parameter must be a positive integer.") ∧
    eventsOf (explainInstance engineBad (some numRow) (some 0)).obs = [] :=
  (C6_explain_input_validation engineBad (fun _ => rfl)).2.2.2.2.2.2 numRow 0
    ⟨rfl, rfl, rfl, fun _ => rfl⟩ (by decide)

/-!  Claims C5 and C9: the per-class loop of `explain_instance`. -/

@[simp] theorem probsColumn_obs (probs : NPArray) (i : Nat) :
    (probsColumn probs i).obs = [] := by
  unfold probsColumn
  split
  all_goals rfl

@[simp] theorem pyListGet_obs {α : Type} (l : List α) (i : Nat) :
    (pyListGet l i).obs = [] := by
  unfold pyListGet
  split
  all_goals rfl

@[simp] theorem ndarrayGet1d_obs (a : NPArray) (idx : Index) :
    (ndarrayGet1d a idx).obs = [] := by
  unfold ndarrayGet1d
  repeat' split
  all_goals rfl

@[simp] theorem pyIntOfValue_obs (v : NPValue) : (pyIntOfValue v).obs = [] := by
  unfold pyIntOfValue
  split
  all_goals rfl

/-- Column `i` of the probability matrix as a plain list, read off the
result of `probsColumn` (empty when the read fails). -/
def colOf (probs : NPArray) (i : Nat) : List NPValue :=
  match (probsColumn probs i).res with
  | Except.ok c => c
  | Except.error _ => []

theorem probsColumn_eq_of_isOk (probs : NPArray) (i : Nat)
    (h : (probsColumn probs i).res.isOk = true) :
    probsColumn probs i = ⟨[], Except.ok (colOf probs i)⟩ := by
  have hobs := probsColumn_obs probs i
  rcases hx : probsColumn probs i with ⟨o, r⟩
  rw [hx] at hobs h
  simp only at hobs h
  subst hobs
  cases r with
  | error e => simp [Except.isOk, Except.toBool] at h
  | ok c =>
      have hcol : colOf probs i = c := by
        unfold colOf
        rw [hx]
      rw [hcol]

theorem pyListGet_str (l : List String) (i : Nat) (h : i < l.length) :
    pyListGet l i = pure (l.getD i "") := by
  have hv : l.get? i = some l[i] := by
    rw [List.get?_eq_getElem?, List.getElem?_eq_getElem h]
  unfold pyListGet
  rw [hv]
  have hd : l.getD i "" = l[i] := by
    rw [List.getD_eq_getElem?_getD, List.getElem?_eq_getElem h]
    rfl
  rw [hd]

theorem pyListGet_none {α : Type} (l : List α) (i : Nat)
    (h : l.get? i = none) :
    pyListGet l i = raise (PyError.indexError "list index out of range") := by
  unfold pyListGet
  rw [h]

/-- The four collaborator observations the per-class loop records for
class `i`. -/
def classObs (probs : NPArray) (i : Nat) : List Obs :=
  [Obs.event (Event.localModelMake i),
   Obs.event (Event.localFitCall i (colOf probs i)),
   Obs.event (Event.explainerMake i),
   Obs.event (Event.explainCall i)]

/-- The dictionary the per-class loop accumulates, computed as a pure
fold. -/
def classLoopPure (b : Blimey) (bd probs : NPArray) (dfn : List String)
    (dr : NPArray) : List Nat → Explanations → Explanations
  | [], acc => acc
  | i :: rest, acc =>
      classLoopPure b bd probs dfn dr rest
        (pyDictInsert acc (b.class_names.getD i "")
          ((b.explainer_class.make b.dataset
              (b.local_model.fit (b.local_model.make b.kwargs) bd (colOf probs i))
              dfn b.categorical_indices b.kwargs).explain_instance dr b.kwargs))

theorem PyM.bindM_assoc {α β γ : Type} (x : PyM α) (f : α → PyM β)
    (g : β → PyM γ) :
    PyM.bindM (PyM.bindM x f) g = PyM.bindM x fun a => PyM.bindM (f a) g := by
  rcases x with ⟨o, r⟩
  cases r with
  | error e => rfl
  | ok a =>
      show PyM.bindM ⟨o ++ (f a).obs, (f a).res⟩ g = _
      rcases hfa : f a with ⟨o2, r2⟩
      cases r2
      all_goals simp [PyM.bindM, hfa, List.append_assoc]

theorem classLoop_ok_chars (b : Blimey) (bd probs : NPArray)
    (dfn : List String) (dr : NPArray) :
    ∀ (idxs : List Nat) (acc : Explanations),
    (∀ i ∈ idxs, (probsColumn probs i).res.isOk = true) →
    (∀ i ∈ idxs, i < b.class_names.length) →
    classLoop b bd probs dfn dr idxs acc =
      ⟨idxs.flatMap (classObs probs),
       Except.ok (classLoopPure b bd probs dfn dr idxs acc)⟩
  | [], acc, _, _ => rfl
  | i :: rest, acc, hcols, hlt => by
      have hpc := probsColumn_eq_of_isOk probs i (hcols i (List.mem_cons_self i rest))
      have hi := hlt i (List.mem_cons_self i rest)
      have ih := classLoop_ok_chars b bd probs dfn dr rest
        (pyDictInsert acc (b.class_names.getD i "")
          ((b.explainer_class.make b.dataset
              (b.local_model.fit (b.local_model.make b.kwargs) bd (colOf probs i))
              dfn b.categorical_indices b.kwargs).explain_instance dr b.kwargs))
        (fun j hj => hcols j (List.mem_cons_of_mem i hj))
        (fun j hj => hlt j (List.mem_cons_of_mem i hj))
      simp only [classLoop, PyM.bind_eq_bindM, hpc, pyListGet_str b.class_names i hi]
      simp only [PyM.bindM, PyM.emit_obs, PyM.emit_res, PyM.pure_obs, PyM.pure_res]
      simp only [ih]
      simp [classLoopPure, classObs]

theorem classLoop_append (b : Blimey) (bd probs : NPArray)
    (dfn : List String) (dr : NPArray) :
    ∀ (l1 l2 : List Nat) (acc : Explanations),
    classLoop b bd probs dfn dr (l1 ++ l2) acc =
      PyM.bindM (classLoop b bd probs dfn dr l1 acc)
        (fun acc2 => classLoop b bd probs dfn dr l2 acc2)
  | [], l2, acc => by
      rcases hx : classLoop b bd probs dfn dr l2 acc with ⟨o, r⟩
      simp [classLoop, PyM.bindM, hx]
  | i :: rest, l2, acc => by
      simp only [List.cons_append, classLoop, PyM.bind_eq_bindM, List.append_eq,
        classLoop_append b bd probs dfn dr rest l2, PyM.bindM_assoc]

theorem classLoop_overflow (b : Blimey) (bd probs : NPArray)
    (dfn : List String) (dr : NPArray) (i : Nat) (rest : List Nat)
    (acc : Explanations)
    (hcol : (probsColumn probs i).res.isOk = true)
    (hlen : b.class_names.length ≤ i) :
    classLoop b bd probs dfn dr (i :: rest) acc =
      ⟨classObs probs i,
       Except.error (PyError.indexError "list index out of range")⟩ := by
  have hpc := probsColumn_eq_of_isOk probs i hcol
  have hnone : b.class_names.get? i = none := List.get?_eq_none.mpr hlen
  simp only [classLoop, PyM.bind_eq_bindM, hpc, pyListGet_none b.class_names i hnone]
  simp [PyM.bindM, raise, classObs]

theorem pyDictInsert_fresh {β : Type} (d : List (String × β)) (k : String)
    (v : β) (h : ∀ p ∈ d, ¬ p.1 = k) : pyDictInsert d k v = d ++ [(k, v)] := by
  unfold pyDictInsert
  rw [if_neg]
  simp only [List.any_eq_true, decide_eq_true_eq, not_exists]
  intro p hp
  exact h p hp.1 hp.2

theorem filterMap_get_range {α : Type} (l : List α) :
    (List.range l.length).filterMap l.get? = l := by
  induction l with
  | nil => rfl
  | cons x xs ih =>
      rw [List.length_cons, List.range_succ_eq_map, List.filterMap_cons]
      simp only [List.get?_cons_zero, List.filterMap_map]
      have hcomp : (x :: xs).get? ∘ Nat.succ = xs.get? := by
        funext j
        rfl
      rw [hcomp, ih]

@[simp] theorem localFitIndex_make (i : Nat) :
    localFitIndex (Event.localModelMake i) = none := rfl

@[simp] theorem localFitIndex_fit (i : Nat) (t : List NPValue) :
    localFitIndex (Event.localFitCall i t) = some i := rfl

@[simp] theorem localFitIndex_explMake (i : Nat) :
    localFitIndex (Event.explainerMake i) = none := rfl

@[simp] theorem localFitIndex_explCall (i : Nat) :
    localFitIndex (Event.explainCall i) = none := rfl

theorem buildDiscretizedFeatureNames_obs (b : Blimey) (dr : NPArray) :
    ∀ (l : List (Nat × Index)), (buildDiscretizedFeatureNames b dr l).obs = []
  | [] => rfl
  | p :: rest => by
      simp only [buildDiscretizedFeatureNames, PyM.bind_eq_bindM, PyM.bindM_obs,
        PyM.bindM_res, ndarrayGet1d_obs, pyIntOfValue_obs, pyListGet_obs,
        PyM.pure_obs, List.append_nil, List.nil_append]
      repeat' split
      all_goals first
        | rfl
        | simp [buildDiscretizedFeatureNames_obs b dr rest]

theorem classLoop_ok_keys (b : Blimey) (bd probs : NPArray)
    (dfn : List String) (dr : NPArray) :
    ∀ (idxs : List Nat) (acc m : Explanations),
    (classLoop b bd probs dfn dr idxs acc).res = Except.ok m →
    (acc.map Prod.fst ++ idxs.filterMap b.class_names.get?).Nodup →
    m.map Prod.fst = acc.map Prod.fst ++ idxs.filterMap b.class_names.get? ∧
    (eventsOf (classLoop b bd probs dfn dr idxs acc).obs).filterMap
      localFitIndex = idxs
  | [], acc, m, h, _ => by
      simp only [classLoop, PyM.pure_res, Except.ok.injEq] at h
      subst h
      simp [classLoop, eventsOf]
  | i :: rest, acc, m, h, hnd => by
      simp only [classLoop, PyM.bind_eq_bindM, PyM.bindM_res, PyM.bindM_obs,
        PyM.emit_res, PyM.emit_obs, PyM.pure_res, PyM.pure_obs,
        probsColumn_obs, pyListGet_obs, List.append_nil, List.nil_append] at h ⊢
      rcases hp : (probsColumn probs i).res with e | targets
      · simp only [hp] at h
        simp at h
      simp only [hp] at h
      try simp only [hp]
      rcases hg : b.class_names.get? i with _ | nm
      · rw [show (pyListGet b.class_names i).res =
            Except.error (PyError.indexError "list index out of range") from by
              rw [pyListGet_none b.class_names i hg]
              rfl] at h
        simp at h
      rw [show (pyListGet b.class_names i).res = Except.ok nm from by
            unfold pyListGet
            rw [hg]
            rfl] at h ⊢
      have hfresh : ∀ p ∈ acc, ¬ p.1 = nm := by
        intro p hp hc
        have hmem : nm ∈ acc.map Prod.fst := by
          rw [← hc]
          exact List.mem_map_of_mem Prod.fst hp
        have hmem2 : nm ∈ List.filterMap b.class_names.get? (i :: rest) := by
          rw [List.filterMap_cons, hg]
          exact List.mem_cons_self nm _
        exact (List.disjoint_of_nodup_append hnd) hmem hmem2
      have h2' : (classLoop b bd probs dfn dr rest
          (pyDictInsert acc nm
            ((b.explainer_class.make b.dataset
                (b.local_model.fit (b.local_model.make b.kwargs) bd targets)
                dfn b.categorical_indices b.kwargs).explain_instance dr
                  b.kwargs))).res = Except.ok m := h
      rw [pyDictInsert_fresh acc nm _ hfresh] at h2'
      have hnd2 : ((acc ++ [(nm,
          ((b.explainer_class.make b.dataset
              (b.local_model.fit (b.local_model.make b.kwargs) bd targets)
              dfn b.categorical_indices b.kwargs).explain_instance dr
                b.kwargs))]).map Prod.fst ++
            rest.filterMap b.class_names.get?).Nodup := by
        rw [List.map_append]
        rw [List.append_assoc]
        simp only [List.map_cons, List.map_nil]
        rw [List.filterMap_cons, hg] at hnd
        simpa using hnd
      obtain ⟨h1, h2⟩ := classLoop_ok_keys b bd probs dfn dr rest _ m h2' hnd2
      constructor
      · rw [h1, List.filterMap_cons, hg]
        simp [List.append_assoc]
      · simp only [eventsOf_append, eventsOf_cons_event, eventsOf_nil,
          List.filterMap_append, List.filterMap_cons, localFitIndex_make,
          localFitIndex_fit, localFitIndex_explMake, localFitIndex_explCall,
          List.filterMap_nil] at h2 ⊢
        rw [pyDictInsert_fresh acc nm _ hfresh]
        rw [h2]
        simp

/-- Engine construction over `numDataset` with three supplied class names
although the global model outputs two probability columns. -/
def initThree : PyM Blimey :=
  blimeyInit numDataset identityAugmentor identityDiscretizer trivialExplainer
    badProbaModel trivialLocalModel none (some [some "x", some "y", some "z"])
    none []

/-- The engine constructed by `initThree`. -/
def engineThree : Blimey :=
  match initThree.res with
  | Except.ok b => b
  | Except.error _ => defaultBlimey

/-- C5 amended: for every call to `explain_instance` that returns, PROVIDED
the configured class-name list has exactly `n_classes` pairwise-distinct
entries, the returned mapping's key list is exactly the configured
class-name list (so the key set equals the configured set, in configured
order), and the per-class work is done in ascending class-index order (the
local-model `fit` invocations occur for classes `0, 1, …, n_classes - 1` in
that order).  The proviso is necessary: construction accepts a class-name
list of any length (see the counterexample), and then the key set differs
from the configured set. -/
theorem C5_class_keys (b : Blimey) (r : Option NPArray) (sn : Option Int)
    (obs : List Obs) (m : Explanations)
    (hlen : b.class_names.length = b.n_classes)
    (hnd : b.class_names.Nodup)
    (h : explainInstance b r sn = ⟨obs, Except.ok m⟩) :
    m.map Prod.fst = b.class_names ∧
    (eventsOf obs).filterMap localFitIndex = List.range b.n_classes := by
  have hres : (explainInstance b r sn).res = Except.ok m := by rw [h]
  have hobs : (explainInstance b r sn).obs = obs := by rw [h]
  simp only [explainInstance, explainInstanceCore, PyM.bind_eq_bindM,
    PyM.bindM_res, PyM.bindM_obs, PyM.emit_res, PyM.emit_obs, PyM.pure_res,
    PyM.pure_obs, List.append_nil, List.nil_append] at hres hobs
  rcases hv : (explainInstanceIsInputValid b r sn).res with e | bv
  · simp only [hv] at hres
    cases hres
  simp only [hv] at hres hobs
  rcases hdfn : (buildDiscretizedFeatureNames b
      (b.discretizer.discretize (r.getD emptyNPArray)) b.indices.enum).res
    with e | dfnv
  · simp only [hdfn] at hres
    cases hres
  simp only [hdfn] at hres hobs
  rcases hloop : (classLoop b
      (similarity_binary_mask
        (b.discretizer.discretize
          (b.augmentor.sample (r.getD emptyNPArray) ((sn.getD 50).toNat) b.kwargs))
        (b.discretizer.discretize (r.getD emptyNPArray)))
      (b.global_model.predict_proba
        (b.augmentor.sample (r.getD emptyNPArray) ((sn.getD 50).toNat) b.kwargs))
      dfnv (b.discretizer.discretize (r.getD emptyNPArray))
      (List.range b.n_classes) []).res with e | lm
  · simp only [hloop] at hres
    cases hres
  simp only [hloop, Except.ok.injEq] at hres hobs
  have hnod : (([] : Explanations).map Prod.fst ++
      (List.range b.n_classes).filterMap b.class_names.get?).Nodup := by
    simp only [List.map_nil, List.nil_append]
    rw [← hlen, filterMap_get_range]
    exact hnd
  have hres2 : (classLoop b
      (similarity_binary_mask
        (b.discretizer.discretize
          (b.augmentor.sample (r.getD emptyNPArray) ((sn.getD 50).toNat) b.kwargs))
        (b.discretizer.discretize (r.getD emptyNPArray)))
      (b.global_model.predict_proba
        (b.augmentor.sample (r.getD emptyNPArray) ((sn.getD 50).toNat) b.kwargs))
      dfnv (b.discretizer.discretize (r.getD emptyNPArray))
      (List.range b.n_classes) []).res = Except.ok m := by
    rw [hloop, hres]
  obtain ⟨h1, h2⟩ := classLoop_ok_keys b _ _ dfnv _ (List.range b.n_classes)
    [] m hres2 hnod
  constructor
  · rw [h1]
    simp only [List.map_nil, List.nil_append]
    rw [← hlen, filterMap_get_range]
  · rw [← hobs]
    simp only [eventsOf_append, List.filterMap_append, explainValidation_obs,
      eventsOf_is_1d_obs, List.filterMap_nil, eventsOf_cons_event, eventsOf_nil,
      List.filterMap_cons, buildDiscretizedFeatureNames_obs, h2, localFitIndex]
    simp

/-- C5 counterexample: construction accepts three class names although the
global model outputs two probability columns; the subsequent explanation
returns only the keys "x" and "y", so the key set is NOT the configured
class-name set — "z" is configured but absent. -/
theorem C5_counterexample :
    initThree.res.isOk = true ∧
    warningsOf initThree.obs = [] ∧
    engineThree.class_names = ["x", "y", "z"] ∧
    engineThree.n_classes = 2 ∧
    (explainInstance engineThree (some numRow) (some 3)).res =
      Except.ok [("x", []), ("y", [])] ∧
    [("x", ([] : Explanation)), ("y", [])].map Prod.fst ≠
      engineThree.class_names ∧
    "z" ∈ engineThree.class_names ∧
    ¬ "z" ∈ [("x", ([] : Explanation)), ("y", [])].map Prod.fst :=
  ⟨rfl, rfl, rfl, rfl, rfl, by decide, by decide, by decide⟩

/-- Witness for C5 on the two-class engine with synthesized class names:
the returned keys are exactly ["class 0", "class 1"] in order, and the fit
calls are for classes 0 then 1. -/
theorem C5_witness :
    [("class 0", ([] : Explanation)), ("class 1", [])].map Prod.fst =
      engineBad.class_names ∧
    (eventsOf (explainInstance engineBad (some numRow) (some 3)).obs).filterMap
      localFitIndex = List.range engineBad.n_classes :=
  C5_class_keys engineBad (some numRow) (some 3)
    (explainInstance engineBad (some numRow) (some 3)).obs
    [("class 0", []), ("class 1", [])] rfl (by decide) rfl

theorem PyM.bindM_ok {α β : Type} (o : List Obs) (a : α) (f : α → PyM β) :
    PyM.bindM ⟨o, Except.ok a⟩ f = ⟨o ++ (f a).obs, (f a).res⟩ := rfl

theorem PyM.bindM_err {α β : Type} (o : List Obs) (e : PyError)
    (f : α → PyM β) : PyM.bindM ⟨o, Except.error e⟩ f = ⟨o, Except.error e⟩ :=
  rfl

theorem PyM.emit_eq (e : Event) : emit e = ⟨[Obs.event e], Except.ok ()⟩ := rfl

theorem PyM.pure_eq {α : Type} (a : α) :
    (pure a : PyM α) = ⟨[], Except.ok a⟩ := rfl

theorem inputIsValid_cn (d : NPArray) (a : AugmentorClass)
    (di : DiscretizerClass) (g : GlobalModel) (l : LocalModelClass)
    (ci : Option (List Index)) (cn cn' : Option (List (Option String)))
    (fn : Option (List (Option String))) :
    inputIsValid d a di g l ci cn fn = inputIsValid d a di g l ci cn' fn := by
  unfold inputIsValid
  rw [checkOptionalStringList_eq, checkOptionalStringList_eq]

theorem blimeyInit_class_names_unchecked (d : NPArray) (a : AugmentorClass)
    (di : DiscretizerClass) (e : ExplainerClass) (g : GlobalModel)
    (l : LocalModelClass) (ci : Option (List Index))
    (cnl : List (Option String)) (fn : Option (List (Option String)))
    (k : Kwargs) :
    (blimeyInit d a di e g l ci (some cnl) fn k).obs =
      (blimeyInit d a di e g l ci none fn k).obs ∧
    (blimeyInit d a di e g l ci (some cnl) fn k).res.isOk =
      (blimeyInit d a di e g l ci none fn k).res.isOk := by
  unfold blimeyInit
  rw [inputIsValid_cn d a di g l ci (some cnl) none fn]
  constructor
  · simp only [PyM.bind_eq_bindM, PyM.bindM_obs, PyM.bindM_res, PyM.pure_obs,
      PyM.emit_obs, PyM.emit_res, maybeWarnWidening_obs, maybeWarnWidening_res]
  · simp only [PyM.bind_eq_bindM, PyM.bindM_res, PyM.pure_res, PyM.emit_res,
      maybeWarnWidening_res]
    repeat' split
    all_goals rfl

theorem explainValidation_ok_res (b : Blimey) (r : NPArray) (sn : Int)
    (hrc : rowChecksPass b r)
    (hshape : b.is_structured = false → b.dataset.shape.length = 2)
    (hsn : 1 ≤ sn) :
    (explainInstanceIsInputValid b (some r) (some sn)).res = Except.ok true := by
  obtain ⟨h1, h2, h3, h4⟩ := hrc
  unfold explainInstanceIsInputValid
  rw [is_1d_array_plain r h1]
  obtain ⟨c, hc⟩ := List.length_eq_one.mp h2
  by_cases hbs : b.is_structured = true
  · simp [PyM.bindM_res, require, h2, are_similar_dtype_arrays, h3, hbs, hsn]
  · rw [Bool.not_eq_true] at hbs
    obtain ⟨x, y, hxy⟩ := List.length_eq_two.mp (hshape hbs)
    have hcy : c = y := by
      have := h4 hbs
      rw [hc, hxy] at this
      simpa using this
    simp [PyM.bindM_res, require, h2, are_similar_dtype_arrays, h3, hbs,
      tupleGet_res, hc, hxy, hcy, hsn]

theorem explainValidation_ok_eq (b : Blimey) (r : NPArray) (sn : Int)
    (hrc : rowChecksPass b r)
    (hshape : b.is_structured = false → b.dataset.shape.length = 2)
    (hsn : 1 ≤ sn) :
    explainInstanceIsInputValid b (some r) (some sn) =
      ⟨[], Except.ok true⟩ := by
  have hobs : (explainInstanceIsInputValid b (some r) (some sn)).obs = [] := by
    rw [explainValidation_obs, is_1d_array_plain r hrc.1]
    rfl
  have hres := explainValidation_ok_res b r sn hrc hshape hsn
  calc explainInstanceIsInputValid b (some r) (some sn)
      = ⟨(explainInstanceIsInputValid b (some r) (some sn)).obs,
         (explainInstanceIsInputValid b (some r) (some sn)).res⟩ := rfl
    _ = ⟨[], Except.ok true⟩ := by rw [hobs, hres]

theorem classLoop_range_overflow (b : Blimey) (bd probs : NPArray)
    (dfn : List String) (dr : NPArray)
    (hlen : b.class_names.length < b.n_classes)
    (hcols : ∀ i ∈ List.range (b.class_names.length + 1),
      (probsColumn probs i).res.isOk = true) :
    classLoop b bd probs dfn dr (List.range b.n_classes) [] =
      ⟨(List.range (b.class_names.length + 1)).flatMap (classObs probs),
       Except.error (PyError.indexError "list index out of range")⟩ := by
  have hsplit : List.range b.n_classes =
      List.range b.class_names.length ++ (b.class_names.length ::
        (List.range (b.n_classes - (b.class_names.length + 1))).map
          (fun j => b.class_names.length + 1 + j)) := by
    have hn : b.n_classes =
        b.class_names.length + 1 + (b.n_classes - (b.class_names.length + 1)) := by
      omega
    rw [hn, List.range_add, List.range_succ, List.append_assoc]
    have hk : b.class_names.length + 1 + (b.n_classes - (b.class_names.length + 1)) -
        (b.class_names.length + 1) = b.n_classes - (b.class_names.length + 1) := by
      omega
    rw [hk, List.singleton_append]
  rw [hsplit, classLoop_append,
    classLoop_ok_chars b bd probs dfn dr (List.range b.class_names.length) []
      (fun i hi => hcols i (by
        rw [List.range_succ]
        exact List.mem_append_left _ hi))
      (fun i hi => List.mem_range.mp hi)]
  simp only [PyM.bindM_ok]
  rw [classLoop_overflow b bd probs dfn dr b.class_names.length _ _
    (hcols b.class_names.length (by
      rw [List.range_succ]
      exact List.mem_append_right _ (List.mem_singleton.mpr rfl)))
    (le_refl _)]
  rw [List.range_succ, List.flatMap_append]
  simp

theorem explain_overflow (b : Blimey) (r : NPArray) (sn : Int)
    (dfnv : List String)
    (hlen : b.class_names.length < b.n_classes)
    (hrc : rowChecksPass b r)
    (hshape : b.is_structured = false → b.dataset.shape.length = 2)
    (hsn : 1 ≤ sn)
    (hdfn : (buildDiscretizedFeatureNames b (b.discretizer.discretize r)
      b.indices.enum).res = Except.ok dfnv)
    (hcols : ∀ i ∈ List.range (b.class_names.length + 1),
      (probsColumn (b.global_model.predict_proba
        (b.augmentor.sample r sn.toNat b.kwargs)) i).res.isOk = true) :
    (explainInstance b (some r) (some sn)).res =
      Except.error (PyError.indexError "list index out of range") ∧
    (explainInstance b (some r) (some sn)).obs =
      Obs.event (Event.discretizeCall r) ::
      Obs.event (Event.sampleCall r sn.toNat) ::
      Obs.event (Event.predictProbaCall (b.augmentor.sample r sn.toNat b.kwargs)) ::
      Obs.event (Event.discretizeCall (b.augmentor.sample r sn.toNat b.kwargs)) ::
      (List.range (b.class_names.length + 1)).flatMap
        (classObs (b.global_model.predict_proba
          (b.augmentor.sample r sn.toNat b.kwargs))) := by
  have hval := explainValidation_ok_eq b r sn hrc hshape hsn
  have hdfnm : buildDiscretizedFeatureNames b (b.discretizer.discretize r)
      b.indices.enum = ⟨[], Except.ok dfnv⟩ := by
    have hobs := buildDiscretizedFeatureNames_obs b (b.discretizer.discretize r)
      b.indices.enum
    calc buildDiscretizedFeatureNames b (b.discretizer.discretize r) b.indices.enum
        = ⟨(buildDiscretizedFeatureNames b (b.discretizer.discretize r)
              b.indices.enum).obs,
           (buildDiscretizedFeatureNames b (b.discretizer.discretize r)
              b.indices.enum).res⟩ := rfl
      _ = ⟨[], Except.ok dfnv⟩ := by rw [hobs, hdfn]
  have hloop := classLoop_range_overflow b
    (similarity_binary_mask
      (b.discretizer.discretize (b.augmentor.sample r sn.toNat b.kwargs))
      (b.discretizer.discretize r))
    (b.global_model.predict_proba (b.augmentor.sample r sn.toNat b.kwargs))
    dfnv (b.discretizer.discretize r) hlen hcols
  unfold explainInstance explainInstanceCore
  simp only [Option.getD_some, PyM.bind_eq_bindM, hval, hdfnm, hloop,
    PyM.emit_eq, PyM.pure_eq, PyM.bindM_ok, PyM.bindM_err,
    Int.toNat_ofNat]
  refine ⟨trivial, ?_⟩
  simp

/-- Engine construction over `numDataset` with a single supplied class name
although the global model outputs two probability columns. -/
def initShort : PyM Blimey :=
  blimeyInit numDataset identityAugmentor identityDiscretizer trivialExplainer
    badProbaModel trivialLocalModel none (some [some "only"]) none []

/-- The engine constructed by `initShort`. -/
def engineShort : Blimey :=
  match initShort.res with
  | Except.ok b => b
  | Except.error _ => defaultBlimey

/-- C9: construction never checks the length of a supplied class-name list
— supplying any list leaves construction's observations (so: its warnings
and collaborator calls) and its success unchanged relative to supplying no
list at all.  On an engine whose class-name list is shorter than
`n_classes`, a valid `explain_instance` call fails with
`IndexError: list index out of range` from the class-name lookup, and its
observation trace shows that the discretizer, the sampler, the global
model, and the local model, explainer build, fit and explain steps for
every class up to and including the first out-of-range one have already
been invoked when the error is raised. -/
theorem C9_unchecked_class_names :
    (∀ (d : NPArray) (a : AugmentorClass) (di : DiscretizerClass)
       (e : ExplainerClass) (g : GlobalModel) (l : LocalModelClass)
       (ci : Option (List Index)) (cnl : List (Option String))
       (fn : Option (List (Option String))) (k : Kwargs),
       (blimeyInit d a di e g l ci (some cnl) fn k).obs =
         (blimeyInit d a di e g l ci none fn k).obs ∧
       (blimeyInit d a di e g l ci (some cnl) fn k).res.isOk =
         (blimeyInit d a di e g l ci none fn k).res.isOk) ∧
    (∀ (b : Blimey) (r : NPArray) (sn : Int) (dfnv : List String),
       b.class_names.length < b.n_classes →
       rowChecksPass b r →
       (b.is_structured = false → b.dataset.shape.length = 2) →
       1 ≤ sn →
       (buildDiscretizedFeatureNames b (b.discretizer.discretize r)
         b.indices.enum).res = Except.ok dfnv →
       (∀ i ∈ List.range (b.class_names.length + 1),
         (probsColumn (b.global_model.predict_proba
           (b.augmentor.sample r sn.toNat b.kwargs)) i).res.isOk = true) →
       (explainInstance b (some r) (some sn)).res =
         Except.error (PyError.indexError "list index out of range") ∧
       (explainInstance b (some r) (some sn)).obs =
         Obs.event (Event.discretizeCall r) ::
         Obs.event (Event.sampleCall r sn.toNat) ::
         Obs.event (Event.predictProbaCall
           (b.augmentor.sample r sn.toNat b.kwargs)) ::
         Obs.event (Event.discretizeCall
           (b.augmentor.sample r sn.toNat b.kwargs)) ::
         (List.range (b.class_names.length + 1)).flatMap
           (classObs (b.global_model.predict_proba
             (b.augmentor.sample r sn.toNat b.kwargs)))) :=
  ⟨fun d a di e g l ci cnl fn k =>
     blimeyInit_class_names_unchecked d a di e g l ci cnl fn k,
   fun b r sn dfnv hlen hrc hshape hsn hdfn hcols =>
     explain_overflow b r sn dfnv hlen hrc hshape hsn hdfn hcols⟩

/-- Witness for C9: the concrete engine built over `numDataset` with the
single class name "only" — construction is indistinguishable from the
unnamed construction, and the explanation call fails only after both
classes' collaborator invocations. -/
theorem C9_witness :
    ((blimeyInit numDataset identityAugmentor identityDiscretizer
        trivialExplainer badProbaModel trivialLocalModel none
        (some [some "only"]) none []).obs =
      (blimeyInit numDataset identityAugmentor identityDiscretizer
        trivialExplainer badProbaModel trivialLocalModel none none none
        []).obs ∧
     (blimeyInit numDataset identityAugmentor identityDiscretizer
        trivialExplainer badProbaModel trivialLocalModel none
        (some [some "only"]) none []).res.isOk =
      (blimeyInit numDataset identityAugmentor identityDiscretizer
        trivialExplainer badProbaModel trivialLocalModel none none none
        []).res.isOk) ∧
    ((explainInstance engineShort (some numRow) (some 3)).res =
       Except.error (PyError.indexError "list index out of range") ∧
     (explainInstance engineShort (some numRow) (some 3)).obs =
       Obs.event (Event.discretizeCall numRow) ::
       Obs.event (Event.sampleCall numRow (3 : Int).toNat) ::
       Obs.event (Event.predictProbaCall
         (engineShort.augmentor.sample numRow (3 : Int).toNat
           engineShort.kwargs)) ::
       Obs.event (Event.discretizeCall
         (engineShort.augmentor.sample numRow (3 : Int).toNat
           engineShort.kwargs)) ::
       (List.range (engineShort.class_names.length + 1)).flatMap
         (classObs (engineShort.global_model.predict_proba
           (engineShort.augmentor.sample numRow (3 : Int).toNat
             engineShort.kwargs)))) :=
  ⟨C9_unchecked_class_names.1 numDataset identityAugmentor identityDiscretizer
     trivialExplainer badProbaModel trivialLocalModel none [some "only"]
     none [],
   C9_unchecked_class_names.2 engineShort numRow 3 ["feature 0", "feature 1"]
     (by decide) ⟨rfl, rfl, rfl, fun _ => rfl⟩ (fun _ => rfl) (by decide) rfl
     (by decide)⟩

end FatF
